import Mathlib

/-!
Shallow embedding of `supabase/functions/hikvision-proxy/index.ts`.

Modelling conventions, fixed throughout:
* JavaScript values that may be `undefined` are modelled as `Option _`
  (`none` = absent/`undefined`); JS string truthiness (`!s` is true for
  `undefined` and `""`) is modelled by `falsyS`.
* Machine timestamps (`Date.now()`, `new Date(...).getTime()`, the
  vendor's `expireTime`) are modelled as abstract `Nat` tick counts; the
  `toISOString()` rendering of an instant is modelled as the decimal form
  of its tick count (`isoOf`).  No claim depends on calendar text.
* The Supabase tables touched by the proxy are modelled as explicit lists
  of rows in a `Db` record; `upsert ... onConflict k` is replace-by-key or
  append; `order by updated_at desc limit 1 single` is `getLatestToken`.
* Outbound vendor HTTP calls are oracles: the parsed body (or the thrown
  transport/JSON-parse error message) each call would produce is a field
  of the `Vendor` record; each operation also emits a trace (`List VCall`)
  of the vendor calls it actually performed, carrying the request payload
  fields the source builds.
* Store-write failures (`error` results of `upsert`/`update`) are inputs,
  in the `DbFaults` record.
* V8-specific exception texts (e.g. the message of the `TypeError` thrown
  when destructuring `undefined`) are modelled by fixed placeholder
  strings; no claim depends on their exact text.
-/

/-- JSON-like values, for the response bodies the handler serialises. -/
inductive JsVal where
  | str (s : String)
  | num (n : Int)
  | bool (b : Bool)
  | null
  | arr (xs : List JsVal)
  | obj (fields : List (String × JsVal))

/-- JS string truthiness of a possibly-undefined string: `!x` is true
exactly when the value is `undefined` or the empty string. -/
def falsyS : Option String → Bool
  | none => true
  | some s => s == ""

/-- JS `||` on a possibly-undefined string with a string default. -/
def jsOrS (x : Option String) (d : String) : String :=
  match x with
  | none => d
  | some s => if s == "" then d else s

/-- JS coercion of a possibly-undefined string to a string (as in a
template literal or a property key): `undefined` prints as "undefined". -/
def jsStr : Option String → String
  | none => "undefined"
  | some s => s

/-- A payload string field that JS only sets when the value is truthy
(`if (v) payload.f = v`). -/
def jsOpt (x : Option String) : Option String :=
  if falsyS x then none else x

/-- `interface HikvisionError` (index.ts line 13). -/
structure HikvisionError where
  message : String
  status : Nat
deriving DecidableEq

/-- `const HIKVISION_ERRORS` (index.ts lines 18-56): the error catalog. -/
def HIKVISION_ERRORS : List (String × HikvisionError) := [
  ("EVZ20002", ⟨"Device does not exist", 404⟩),
  ("EVZ20007", ⟨"The device is offline", 503⟩),
  ("EVZ0012", ⟨"Adding device failed", 400⟩),
  ("EVZ20014", ⟨"Incorrect device serial number", 400⟩),
  ("0x400019F1", ⟨"The maximum number of devices reached", 429⟩),
  ("0x30000010", ⟨"Database search failed", 500⟩),
  ("0x30001000", ⟨"HBP Exception", 500⟩),
  ("0x00300001", ⟨"Time synchronization failed", 500⟩),
  ("0x00300002", ⟨"Invalid NTP server address", 400⟩),
  ("0x00300003", ⟨"Incorrect time format", 400⟩),
  ("0x00400001", ⟨"Parsing domain name failed", 400⟩),
  ("0x00400004", ⟨"IP addresses of devices conflicted", 409⟩),
  ("0x00400006", ⟨"Uploading failed", 500⟩),
  ("0x01400003", ⟨"Certificates mismatched", 403⟩),
  ("0x01400004", ⟨"Device is not activated", 401⟩),
  ("0x01400006", ⟨"IP address is banned", 403⟩),
  ("0x4000109C", ⟨"The library name already exists", 409⟩),
  ("0x4000109D", ⟨"No record found", 404⟩),
  ("0x40008000", ⟨"Arming failed", 500⟩),
  ("0x40008001", ⟨"Disarming failed", 500⟩),
  ("0x40008007", ⟨"Registering timed out", 504⟩),
  ("EVZ10029", ⟨"API calling frequency exceeded limit", 429⟩)]

/-- `getHikvisionError` (index.ts lines 59-65): catalog lookup with the
generic 400 fallback embedding the raw code. -/
def getHikvisionError (errorCode : String) : HikvisionError :=
  match HIKVISION_ERRORS.lookup errorCode with
  | some e => e
  | none => ⟨"Hikvision error: " ++ errorCode, 400⟩

/-- A row of the `hikvision_tokens` table, as written by `getToken`. -/
structure TokenRow where
  access_token : String
  refresh_token : String
  token_type : String
  expires_in : Int
  expire_time : Nat
  area_domain : String
  branch_id : String
  updated_at : Nat
deriving DecidableEq

/-- `upsert(..., { onConflict: 'branch_id' })` on `hikvision_tokens`:
replace the row(s) with the same branch id, or append. -/
def upsertToken (ts : List TokenRow) (row : TokenRow) : List TokenRow :=
  if ts.any (fun r => r.branch_id == row.branch_id) then
    ts.map (fun r => if r.branch_id == row.branch_id then row else r)
  else ts ++ [row]

/-- `select * eq branch_id order updated_at desc limit 1 single`: the
most recently updated token row for a tenant, if any. -/
def getLatestToken (ts : List TokenRow) (branchId : String) : Option TokenRow :=
  (ts.filter (fun r => r.branch_id == branchId)).foldl
    (fun best r =>
      match best with
      | none => some r
      | some b => if b.updated_at ≥ r.updated_at then some b else some r)
    none

/-- The guard `if (tokenError || !tokenData?.access_token)` shared by
every credential-requiring operation. -/
def tokenMissing (ts : List TokenRow) (branchId : String) : Bool :=
  match getLatestToken ts branchId with
  | none => true
  | some t => t.access_token == ""

/-- The fixed unauthenticated message returned by all five
credential-requiring operations. -/
def noTokenMsg : String := "No valid access token found. Please authenticate first."

/-- `interface PersonData` (index.ts lines 89-97); every field may be
absent in the JSON body, so all are optional here (`name` is checked for
truthiness at runtime by `registerPerson`). -/
structure PersonData where
  id : Option String := none
  name : Option String := none
  email : Option String := none
  phone : Option String := none
  faceData : Option String := none
  personId : Option String := none
  gender : Option String := none

/-- An element of the request's `doorList: (string | number)[]`. -/
inductive DoorVal where
  | str (s : String)
  | num (n : Int)

/-- A JS number that may be `NaN` (`none`). -/
abbrev JsNum := Option Int

/-- JS `parseInt(s, 10)`: skip leading whitespace, optional sign,
maximal run of decimal digits; `NaN` (`none`) when there are no digits. -/
def parseIntJs (s : String) : JsNum :=
  let cs := s.toList.dropWhile (fun c => c == ' ' || c == '\t' || c == '\n' || c == '\r')
  let (sgn, rest) :=
    match cs with
    | '-' :: r => ((-1 : Int), r)
    | '+' :: r => ((1 : Int), r)
    | r => ((1 : Int), r)
  let digits := rest.takeWhile Char.isDigit
  if digits.isEmpty then none
  else some (sgn * Int.ofNat (digits.foldl (fun a c => a * 10 + (c.toNat - '0'.toNat)) 0))

/-- The handler's `typeof door === 'string' ? parseInt(door, 10) : door`. -/
def doorToNum : DoorVal → JsNum
  | .str s => parseIntJs s
  | .num n => some n

/-- JS `Number.prototype.toString` restricted to integers / NaN, used for
`doorId.toString()`. -/
def jsNumToString : JsNum → String
  | none => "NaN"
  | some n => toString n

/-- `toISOString()` of an instant, abstracted to the decimal rendering of
the tick count (no claim depends on calendar text). -/
def isoOf (t : Nat) : String := toString t

/-- Data object of a successful vendor `token/get` body
(`HikvisionTokenData`, index.ts lines 99-106); `expireTime` is the
instant as ticks. -/
structure TokenData where
  accessToken : String
  refreshToken : String
  tokenType : String
  expireTime : Nat
  areaDomain : String

/-- Parsed vendor reply to `token/get` as `getToken` inspects it:
HTTP-level `ok`/`status`/`statusText` plus the parsed JSON body fields. -/
structure TokenHttp where
  ok : Bool
  status : Nat
  statusText : String
  code : Option String := none
  msg : Option String := none
  data : Option TokenData := none

/-- Parsed vendor body for `device/status` (only `code` and `data` are
consulted by `testDevice`). -/
structure DeviceBody where
  code : Option String := none
  data : JsVal := .null

/-- `data` object of a vendor `person/add` body. -/
structure PersonAddData where
  personId : Option String := none

/-- Parsed vendor body for `person/add`. -/
structure PersonBody where
  code : Option String := none
  data : Option PersonAddData := none

/-- Parsed vendor body for `acs/privilege/config` (only `code` is
consulted). -/
structure PrivBody where
  code : Option String := none

/-- `data` object of a vendor `site/add` body. -/
structure SiteAddData where
  siteId : Option String := none

/-- Parsed vendor body for `site/add`. -/
structure SiteAddBody where
  code : Option String := none
  data : Option SiteAddData := none

/-- A vendor site object as used by the proxy (`site.id`, `site.name`). -/
structure SiteObj where
  id : String
  name : String

/-- `data` object of a vendor `site/search` body. -/
structure SearchData where
  list : Option (List SiteObj) := none

/-- Parsed vendor body for `site/search`. -/
structure SearchBody where
  code : Option String := none
  data : Option SearchData := none

/-- `responseData.data?.list || []` in `searchSites`. -/
def searchList (sb : SearchBody) : List SiteObj :=
  match sb.data with
  | some sd => sd.list.getD []
  | none => []

/-- Oracle for the outbound vendor calls: each field is what the
corresponding fetch + body parse would yield (`Except.error` carries the
message of the exception a transport or JSON-parse failure would throw). -/
structure Vendor where
  tokenResp : Except String TokenHttp
  deviceResp : Except String DeviceBody
  personResp : Except String PersonBody
  privilegeResp : Except String PrivBody
  siteAddResp : Except String SiteAddBody
  siteSearchResp : Except String SearchBody

/-- Trace entry for one outbound vendor call, carrying the payload fields
the source puts in the request. -/
inductive VCall where
  | tokenGet (appKey secretKey : String)
  | deviceStatus (deviceId : String)
  | personAdd (name gender phone email : String) (pictures : List String)
  | privilegeConfig (personId deviceSerialNo : String) (doorList : List JsNum)
      (validStartTime validEndTime : Option String)
  | siteAdd (siteName remark : String)
  | siteSearch (siteName siteId : Option String)

/-- A row of `hikvision_devices` as read by `assignAccessPrivileges`. -/
structure DeviceRow where
  device_id : String
  branch_id : String

/-- A row of `hikvision_api_settings`. -/
structure SettingsRow where
  branch_id : String
  api_url : String
  site_id : Option String := none
  site_name : Option String := none
  updated_at : Nat := 0

/-- A row of `branches` (only the columns the proxy touches). -/
structure BranchRow where
  id : String
  hikvision_site_id : Option String := none
  hikvision_site_name : Option String := none
  updated_at : Nat := 0

/-- A row of `hikvision_persons` as written by `registerPerson`. -/
structure PersonRow where
  person_id : Option String
  member_id : Option String
  name : String
  gender : Option String
  phone : Option String
  email : Option String
  status : String
  branch_id : String
  sync_status : String
  last_sync : Nat
  created_at : Nat
  updated_at : Nat

/-- A row of `hikvision_access_privileges` as written by
`assignAccessPrivileges`. -/
structure PrivRow where
  person_id : String
  door_id : String
  privilege : Int
  schedule : Int
  valid_start_time : Option String
  valid_end_time : Option String
  status : String
  sync_status : String
  last_sync : Nat
  created_at : Nat
  updated_at : Nat

/-- The backing store: the tables the proxy reads or writes. -/
structure Db where
  hikvision_tokens : List TokenRow := []
  hikvision_devices : List DeviceRow := []
  hikvision_api_settings : List SettingsRow := []
  hikvision_persons : List PersonRow := []
  hikvision_access_privileges : List PrivRow := []
  branches : List BranchRow := []

/-- Injected store-write failures (the `error` results Supabase calls can
return); `privUpsertFailDoors` lists the door-id strings whose
access-privilege upsert fails. -/
structure DbFaults where
  tokenUpsertFail : Bool := false
  branchUpdateFail : Bool := false
  personUpsertFail : Bool := false
  privUpsertFailDoors : List String := []
  settingsUpdateFail : Bool := false

/-- Per-request ambient context: the vendor oracle, the injected store
faults, and the current instant (all `new Date()` calls within one
request are modelled as the same tick). -/
structure Ctx where
  vendor : Vendor
  faults : DbFaults
  now : Nat

/-- `upsert(..., { onConflict: 'member_id' })` on `hikvision_persons`;
a null (`none`) member id never conflicts, matching SQL null semantics. -/
def upsertPerson (ps : List PersonRow) (row : PersonRow) : List PersonRow :=
  match row.member_id with
  | none => ps ++ [row]
  | some m =>
    if ps.any (fun r => r.member_id == some m) then
      ps.map (fun r => if r.member_id == some m then row else r)
    else ps ++ [row]

/-- `upsert(..., { onConflict: 'person_id,door_id' })` on
`hikvision_access_privileges`. -/
def upsertPriv (ps : List PrivRow) (row : PrivRow) : List PrivRow :=
  if ps.any (fun r => r.person_id == row.person_id && r.door_id == row.door_id) then
    ps.map (fun r =>
      if r.person_id == row.person_id && r.door_id == row.door_id then row else r)
  else ps ++ [row]

/-- The untyped JS result objects the operations return, embedded as one
record of optional fields; each return site of the source sets exactly
the fields of the corresponding object literal, and `Envelope.toJs`
renders the set fields in the literal's order (JSON.stringify drops
`undefined` properties). -/
structure Envelope where
  success : Bool
  message : Option String := none
  error : Option String := none
  errorCode : Option String := none
  data : Option JsVal := none
  details : Option String := none
  personId : Option String := none
  sites : Option (List SiteObj) := none
  siteId : Option String := none
  siteName : Option String := none

/-- Render a possibly-absent serialised field. -/
def optField (name : String) (v : Option JsVal) : List (String × JsVal) :=
  match v with
  | some j => [(name, j)]
  | none => []

/-- `JSON.stringify` of a vendor site object. -/
def SiteObj.toJs (s : SiteObj) : JsVal :=
  .obj [("id", .str s.id), ("name", .str s.name)]

/-- `JSON.stringify` of an operation result object: the `success` flag
followed by whichever optional fields the literal set. -/
def Envelope.toJs (e : Envelope) : JsVal :=
  .obj ([("success", .bool e.success)]
    ++ optField "message" (e.message.map .str)
    ++ optField "error" (e.error.map .str)
    ++ optField "errorCode" (e.errorCode.map .str)
    ++ optField "data" e.data
    ++ optField "details" (e.details.map .str)
    ++ optField "personId" (e.personId.map .str)
    ++ optField "sites" (e.sites.map (fun l => .arr (l.map SiteObj.toJs)))
    ++ optField "siteId" (e.siteId.map .str)
    ++ optField "siteName" (e.siteName.map .str))

/-- Placeholder for the V8 TypeError message thrown when
`const { accessToken, ... } = responseData.data` destructures
`undefined` (no claim depends on its text). -/
def destructureErrMsg : String := "TypeError: cannot destructure responseData.data"

/-- Placeholder for the V8 TypeError message thrown when
`responseData.data.personId` reads a property of `undefined`. -/
def readPersonIdErrMsg : String := "TypeError: cannot read personId of undefined"

/-- The `getToken` vendor-code guard
`responseData.code && responseData.code !== '0'`: a present, truthy code
different from the string 0. -/
def tokenCodeError (code : Option String) : Bool :=
  match code with
  | none => false
  | some c => c != "" && c != "0"

/-- The placeholder site `getToken` substitutes when the site search
returns no sites. -/
def defaultSite : SiteObj := ⟨"default-site", "Default Site"⟩

/-- `siteSearchResult.sites?.[0] || defaultSite` in `getToken`. -/
def resolveSite (sres : Envelope) : SiteObj :=
  ((sres.sites.getD []).head?).getD defaultSite

/-- `searchSites` (index.ts lines 880-954), state-passing: takes the
settings fields it reads (`api_url`, `branch_id`) and the two filters;
returns the result envelope, the store (unchanged — this operation only
reads), and the vendor calls made.  The payload sets `siteName`/`siteId`
only when truthy. -/
def searchSites (ctx : Ctx) (db : Db) (api_url branch_id siteName siteId : String) :
    Envelope × Db × List VCall :=
  if api_url == "" then
    ({ success := false, error := some "Hikvision API URL not configured" }, db, [])
  else if tokenMissing db.hikvision_tokens branch_id then
    ({ success := false, error := some noTokenMsg }, db, [])
  else
    let call := VCall.siteSearch (jsOpt (some siteName)) (jsOpt (some siteId))
    match ctx.vendor.siteSearchResp with
    | .error e => ({ success := false, error := some e }, db, [call])
    | .ok body =>
      if body.code != some "0" then
        let err := getHikvisionError (jsStr body.code)
        ({ success := false, message := some err.message, errorCode := body.code },
          db, [call])
      else
        ({ success := true, sites := some (searchList body) }, db, [call])

/-- The credential row `getToken` writes for token data `d`, tenant `b`,
at instant `now` (index.ts lines 392-405); `expires_in` is
`Math.floor((expireTime - now) / 1000)`. -/
def mkTokenRow (d : TokenData) (b : String) (now : Nat) : TokenRow := {
  access_token := d.accessToken,
  refresh_token := d.refreshToken,
  token_type := d.tokenType,
  expires_in := ((d.expireTime : Int) - (now : Int)).fdiv 1000,
  expire_time := d.expireTime,
  area_domain := d.areaDomain,
  branch_id := b,
  updated_at := now }

/-- `getToken` (index.ts lines 334-470), state-passing.  Returns the
result envelope, the updated store, and the vendor calls made. -/
def getToken (ctx : Ctx) (db : Db) (apiUrl appKey secretKey branchId : String) :
    Envelope × Db × List VCall :=
  let call := VCall.tokenGet appKey secretKey
  match ctx.vendor.tokenResp with
  | .error e => ({ success := false, error := some e }, db, [call])
  | .ok resp =>
    if !resp.ok then
      let errorMsg :=
        jsOrS resp.msg ("HTTP " ++ toString resp.status ++ " " ++ resp.statusText)
      ({ success := false, error := some errorMsg }, db, [call])
    else if tokenCodeError resp.code then
      ({ success := false,
         error := some (jsOrS resp.msg ("Error code: " ++ jsStr resp.code)),
         errorCode := resp.code }, db, [call])
    else
      match resp.data with
      | none => ({ success := false, error := some destructureErrMsg }, db, [call])
      | some d =>
        if ctx.faults.tokenUpsertFail then
          ({ success := false, error := some "Failed to store token in database" },
            db, [call])
        else
          let row := mkTokenRow d branchId ctx.now
          let db1 := { db with hikvision_tokens := upsertToken db.hikvision_tokens row }
          let sout := searchSites ctx db1 apiUrl branchId "" ""
          let sres := sout.1
          let db2 := sout.2.1
          let calls := call :: sout.2.2
          if !sres.success then
            ({ success := false, error := some "Failed to search for site",
               details := sres.error }, db2, calls)
          else
            let site := resolveSite sres
            let db3 :=
              if ctx.faults.branchUpdateFail then db2
              else { db2 with branches := db2.branches.map (fun b =>
                if b.id == branchId then
                  { b with hikvision_site_id := some site.id,
                           hikvision_site_name := some site.name,
                           updated_at := ctx.now }
                else b) }
            ({ success := true,
               data := some (.obj [
                 ("accessToken", .str d.accessToken),
                 ("tokenType", .str d.tokenType),
                 ("expireTime", .str (isoOf d.expireTime)),
                 ("areaDomain", .str d.areaDomain),
                 ("siteId", .str site.id),
                 ("siteName", .str site.name)]) }, db3, calls)

/-- The `settings` object the handler builds and passes to `testDevice`,
`registerPerson` and `searchSites`. -/
structure Settings where
  api_url : String
  branch_id : String
  device_id : Option String := none

/-- `testDevice` (index.ts lines 473-535). -/
def testDevice (ctx : Ctx) (db : Db) (settings : Settings) :
    Envelope × Db × List VCall :=
  if settings.api_url == "" then
    ({ success := false, error := some "Hikvision API URL not configured" }, db, [])
  else if tokenMissing db.hikvision_tokens settings.branch_id then
    ({ success := false, error := some noTokenMsg }, db, [])
  else
    let call := VCall.deviceStatus (jsStr settings.device_id)
    match ctx.vendor.deviceResp with
    | .error e => ({ success := false, error := some e }, db, [call])
    | .ok body =>
      if body.code != some "0" then
        let err := getHikvisionError (jsStr body.code)
        ({ success := false, error := some err.message, errorCode := body.code },
          db, [call])
      else
        ({ success := true, message := some "Device is online and working",
           data := some body.data }, db, [call])

/-- The person-mapping row `registerPerson` writes (index.ts lines
607-624) for person input `pd`, vendor person id `personId`, tenant `b`,
at instant `now`. -/
def mkPersonRow (pd : PersonData) (personId : Option String) (b : String)
    (now : Nat) : PersonRow := {
  person_id := personId,
  member_id := pd.id,
  name := jsStr pd.name,
  gender := pd.gender,
  phone := pd.phone,
  email := pd.email,
  status := "active",
  branch_id := b,
  sync_status := "success",
  last_sync := now,
  created_at := now,
  updated_at := now }

/-- `registerPerson` (index.ts lines 538-643). -/
def registerPerson (ctx : Ctx) (db : Db) (settings : Settings)
    (personData : PersonData) (branchId : String) : Envelope × Db × List VCall :=
  if settings.api_url == "" then
    ({ success := false, error := some "Hikvision API URL not configured" }, db, [])
  else if falsyS personData.name then
    ({ success := false, error := some "Person name is required" }, db, [])
  else if tokenMissing db.hikvision_tokens branchId then
    ({ success := false, error := some noTokenMsg }, db, [])
  else
    let call := VCall.personAdd (jsStr personData.name)
      (jsOrS personData.gender "unknown") (jsOrS personData.phone "")
      (jsOrS personData.email "")
      (match jsOpt personData.faceData with | some f => [f] | none => [])
    match ctx.vendor.personResp with
    | .error e => ({ success := false, error := some e }, db, [call])
    | .ok body =>
      if body.code != some "0" then
        let err := getHikvisionError (jsStr body.code)
        ({ success := false, message := some err.message, errorCode := body.code },
          db, [call])
      else
        match body.data with
        | none => ({ success := false, error := some readPersonIdErrMsg }, db, [call])
        | some d =>
          let row := mkPersonRow personData d.personId branchId ctx.now
          let db1 :=
            if ctx.faults.personUpsertFail then db
            else { db with hikvision_persons := upsertPerson db.hikvision_persons row }
          ({ success := true, message := some "Person registered successfully",
             personId := d.personId }, db1, [call])

/-- Result of `assignAccessPrivileges`, with the per-door upsert
attempts (each key is `(person_id, door_id)`) and the door-id strings
whose failed upsert was logged. -/
structure AssignOut where
  result : Envelope
  db : Db
  calls : List VCall
  attempts : List (String × String)
  errorLog : List String

/-- One iteration of the per-door upsert loop of
`assignAccessPrivileges` (index.ts lines 741-763). -/
def assignDoorStep (ctx : Ctx) (personId : String)
    (validStartTime validEndTime : Option String)
    (acc : Db × List (String × String) × List String) (doorId : JsNum) :
    Db × List (String × String) × List String :=
  let d := acc.1
  let atts := acc.2.1
  let log := acc.2.2
  let doorStr := jsNumToString doorId
  if ctx.faults.privUpsertFailDoors.contains doorStr then
    (d, atts ++ [(personId, doorStr)], log ++ [doorStr])
  else
    let row : PrivRow := {
      person_id := personId,
      door_id := doorStr,
      privilege := 1,
      schedule := 0,
      valid_start_time := validStartTime,
      valid_end_time := validEndTime,
      status := "active",
      sync_status := "success",
      last_sync := ctx.now,
      created_at := ctx.now,
      updated_at := ctx.now }
    ({ d with hikvision_access_privileges := upsertPriv d.hikvision_access_privileges row },
      atts ++ [(personId, doorStr)], log)

/-- `assignAccessPrivileges` (index.ts lines 646-777). -/
def assignAccessPrivileges (ctx : Ctx) (db : Db) (deviceId personId : String)
    (doorList : List JsNum) (validStartTime validEndTime : Option String) :
    AssignOut :=
  match db.hikvision_devices.find? (fun r => r.device_id == deviceId) with
  | none => ⟨{ success := false, error := some "Device not found" }, db, [], [], []⟩
  | some dev =>
    let branchId := dev.branch_id
    if tokenMissing db.hikvision_tokens branchId then
      ⟨{ success := false, error := some noTokenMsg }, db, [], [], []⟩
    else
      match db.hikvision_api_settings.find? (fun r => r.branch_id == branchId) with
      | none =>
        ⟨{ success := false, error := some "Hikvision API settings not found" }, db, [], [], []⟩
      | some st =>
        if st.api_url == "" then
          ⟨{ success := false, error := some "Hikvision API settings not found" }, db, [], [], []⟩
        else
          let call := VCall.privilegeConfig personId deviceId doorList
            (jsOpt validStartTime) (jsOpt validEndTime)
          match ctx.vendor.privilegeResp with
          | .error e => ⟨{ success := false, error := some e }, db, [call], [], []⟩
          | .ok body =>
            if body.code != some "0" then
              let err := getHikvisionError (jsStr body.code)
              ⟨{ success := false, message := some err.message, errorCode := body.code },
                db, [call], [], []⟩
            else
              let fold := doorList.foldl
                (assignDoorStep ctx personId validStartTime validEndTime) (db, [], [])
              ⟨{ success := true,
                 message := some "Access privileges assigned successfully" },
                fold.1, [call], fold.2.1, fold.2.2⟩

/-- `createSite` (index.ts lines 780-877). -/
def createSite (ctx : Ctx) (db : Db) (siteName branchId : String) :
    Envelope × Db × List VCall :=
  if tokenMissing db.hikvision_tokens branchId then
    ({ success := false, error := some noTokenMsg }, db, [])
  else
    match db.hikvision_api_settings.find? (fun r => r.branch_id == branchId) with
    | none =>
      ({ success := false, error := some "Hikvision API settings not found" }, db, [])
    | some st =>
      if st.api_url == "" then
        ({ success := false, error := some "Hikvision API settings not found" }, db, [])
      else
        let call := VCall.siteAdd siteName ("Site for branch " ++ branchId)
        match ctx.vendor.siteAddResp with
        | .error e => ({ success := false, error := some e }, db, [call])
        | .ok body =>
          if body.code != some "0" then
            let err := getHikvisionError (jsStr body.code)
            ({ success := false, message := some err.message, errorCode := body.code },
              db, [call])
          else
            let siteId := body.data.bind SiteAddData.siteId
            let db1 :=
              if ctx.faults.settingsUpdateFail then db
              else { db with hikvision_api_settings :=
                db.hikvision_api_settings.map (fun r =>
                  if r.branch_id == branchId then
                    { r with
                      site_id := (match siteId with | some s => some s | none => r.site_id),
                      site_name := some siteName,
                      updated_at := ctx.now }
                  else r) }
            ({ success := true, siteId := siteId, siteName := some siteName }, db1, [call])

/-- `interface HikvisionRequest` (index.ts lines 72-87); every field of
the JSON body may be absent. -/
structure HikvisionRequest where
  action : Option String := none
  apiUrl : Option String := none
  accessToken : Option String := none
  appKey : Option String := none
  secretKey : Option String := none
  deviceId : Option String := none
  memberData : Option PersonData := none
  personData : Option PersonData := none
  doorList : Option (List DoorVal) := none
  validStartTime : Option String := none
  validEndTime : Option String := none
  branchId : Option String := none
  siteName : Option String := none
  siteId : Option String := none

/-- An HTTP response as the handler builds it (`body = none` for the
bodyless 204 preflight answer). -/
structure HttpResponse where
  status : Nat
  headers : List (String × String)
  body : Option JsVal

/-- `corsHeaders` (index.ts lines 114-118). -/
def corsHeaders : List (String × String) := [
  ("Access-Control-Allow-Origin", "*"),
  ("Access-Control-Allow-Methods", "POST, OPTIONS"),
  ("Access-Control-Allow-Headers", "Content-Type, Authorization")]

/-- The header object `{'Content-Type': 'application/json', ...corsHeaders}`
used on every JSON response. -/
def jsonHeaders : List (String × String) :=
  ("Content-Type", "application/json") :: corsHeaders

/-- What one request produces: the HTTP response, the store afterwards,
and the outbound vendor calls made while handling it. -/
structure ServeOut where
  response : HttpResponse
  db : Db
  calls : List VCall

/-- The outer-catch answer (index.ts lines 297-322): a thrown fault is
serialised as `{success:false, error:<message>}` with HTTP 500 (the
`details` field is only set in development mode, which is not modelled,
so it is always dropped). -/
def serveCatch (db : Db) (msg : String) : ServeOut :=
  ⟨⟨500, jsonHeaders,
    some (Envelope.toJs { success := false, error := some msg })⟩, db, []⟩

/-- `branchId = 'default'` in the handler's destructuring: the default
applies exactly when the field is absent (`undefined`). -/
def extractBranchId (r : HikvisionRequest) : String :=
  r.branchId.getD "default"

/-- The `serve` request handler (index.ts lines 120-323).  `method` is
the HTTP method; `reqBody` is the outcome of `await req.json()`
(`Except.error` carries the message of the parse exception, which the
outer catch turns into a 500).  The per-action required-field checks
`throw`, and every such throw is answered by the outer catch. -/
def serve (ctx : Ctx) (db : Db) (method : String)
    (reqBody : Except String HikvisionRequest) : ServeOut :=
  if method == "OPTIONS" then ⟨⟨204, corsHeaders, none⟩, db, []⟩
  else
    match reqBody with
    | .error e => serveCatch db e
    | .ok r =>
      let branchId := extractBranchId r
      let settings : Settings := {
        api_url := r.apiUrl.getD "",
        branch_id := branchId,
        device_id := r.deviceId }
      match r.action with
      | some "getToken" =>
        if falsyS r.appKey || falsyS r.secretKey then
          serveCatch db "appKey and secretKey are required for getToken action"
        else
          let out := getToken ctx db (r.apiUrl.getD "") (r.appKey.getD "")
            (r.secretKey.getD "") branchId
          ⟨⟨200, jsonHeaders, some out.1.toJs⟩, out.2.1, out.2.2⟩
      | some "testDevice" =>
        if falsyS r.deviceId then
          serveCatch db "deviceId is required for testDevice action"
        else
          let out := testDevice ctx db settings
          ⟨⟨200, jsonHeaders, some out.1.toJs⟩, out.2.1, out.2.2⟩
      | some "registerPerson" =>
        match r.personData with
        | none => serveCatch db "personData is required for registerPerson action"
        | some pd =>
          if branchId == "" then
            serveCatch db "branchId is required for registerPerson action"
          else
            let out := registerPerson ctx db settings pd branchId
            ⟨⟨200, jsonHeaders, some out.1.toJs⟩, out.2.1, out.2.2⟩
      | some "assignAccessPrivileges" =>
        if falsyS (r.personData.bind PersonData.id)
            || (r.doorList.getD []).length == 0 then
          serveCatch db
            "personData.id and doorList are required for assignAccessPrivileges action"
        else if falsyS r.deviceId then
          serveCatch db "deviceId is required for assignAccessPrivileges action"
        else
          let doorNumbers := (r.doorList.getD []).map doorToNum
          let out := assignAccessPrivileges ctx db (r.deviceId.getD "")
            ((r.personData.bind PersonData.id).getD "") doorNumbers
            r.validStartTime r.validEndTime
          ⟨⟨200, jsonHeaders,
            some (Envelope.toJs {
              success := true,
              message := some "Access privileges assigned successfully",
              data := some out.result.toJs })⟩, out.db, out.calls⟩
      | some "createSite" =>
        if falsyS r.siteName then
          serveCatch db "siteName is required for createSite action"
        else if branchId == "" then
          serveCatch db "branchId is required for createSite action"
        else
          let out := createSite ctx db (r.siteName.getD "") branchId
          ⟨⟨200, jsonHeaders,
            some (Envelope.toJs {
              success := true,
              message := some "Site created successfully",
              data := some out.1.toJs })⟩, out.2.1, out.2.2⟩
      | some "searchSites" =>
        let out := searchSites ctx db settings.api_url settings.branch_id
          (r.siteName.getD "") (r.siteId.getD "")
        ⟨⟨200, jsonHeaders, some out.1.toJs⟩, out.2.1, out.2.2⟩
      | _ =>
        ⟨⟨400, jsonHeaders,
          some (Envelope.toJs { success := false, error := some "Invalid action" })⟩,
          db, []⟩

/-- C3: the Error Catalog lookup is total over arbitrary string input:
for every code present in the catalog it returns exactly the catalogued
message and status, and for every other string it returns a message that
contains the input code verbatim (as a suffix of the fixed prefix
message) together with status 400; it is a pure total function. -/
theorem errorCatalog_lookup_total :
    (∀ p ∈ HIKVISION_ERRORS, getHikvisionError p.1 = p.2) ∧
    (∀ code : String, HIKVISION_ERRORS.lookup code = none →
      (getHikvisionError code).status = 400 ∧
      ∃ pre, (getHikvisionError code).message = pre ++ code) := by
  constructor
  · decide
  · intro code h
    refine ⟨by simp [getHikvisionError, h], "Hikvision error: ", by simp [getHikvisionError, h]⟩

/-- Witness for the catalog theorem at a catalogued and an uncatalogued
code. -/
theorem errorCatalog_lookup_total_witness :
    getHikvisionError "EVZ20002" = ⟨"Device does not exist", 404⟩ ∧
    (getHikvisionError "BOGUS").status = 400 ∧
    ∃ pre, (getHikvisionError "BOGUS").message = pre ++ "BOGUS" :=
  ⟨errorCatalog_lookup_total.1 ("EVZ20002", ⟨"Device does not exist", 404⟩) (by decide),
   (errorCatalog_lookup_total.2 "BOGUS" (by decide)).1,
   (errorCatalog_lookup_total.2 "BOGUS" (by decide)).2⟩

/-- C8: a request whose action is not one of the six dispatched actions
is answered with the envelope `{success:false, error:"Invalid action"}`,
HTTP status 400, and the CORS headers. -/
theorem invalidAction_response (ctx : Ctx) (db : Db) (r : HikvisionRequest)
    (h : ∀ a ∈ (["getToken", "testDevice", "registerPerson",
      "assignAccessPrivileges", "createSite", "searchSites"] : List String),
      r.action ≠ some a) :
    serve ctx db "POST" (.ok r) =
      ⟨⟨400, ("Content-Type", "application/json") :: corsHeaders,
        some (.obj [("success", .bool false), ("error", .str "Invalid action")])⟩,
        db, []⟩ := by
  have hPost : ("POST" == "OPTIONS") = false := by decide
  rcases hr : r.action with _ | a
  · simp [serve, hPost, hr, jsonHeaders, Envelope.toJs, optField]
  · simp only [serve, hPost, Bool.false_eq_true, if_false, hr]
    split <;> simp_all [jsonHeaders, Envelope.toJs, optField]

/-- Witness: the literal `action: "bogus"` request. -/
theorem invalidAction_response_witness :
    serve ⟨⟨.error "", .error "", .error "", .error "", .error "", .error ""⟩, {}, 0⟩
      {} "POST" (.ok { action := some "bogus" }) =
      ⟨⟨400, ("Content-Type", "application/json") :: corsHeaders,
        some (.obj [("success", .bool false), ("error", .str "Invalid action")])⟩,
        {}, []⟩ :=
  invalidAction_response _ _ _ (by intro a ha; fin_cases ha <;> simp)

/-- The router's per-action required-field `throw` guards
(index.ts lines 168-252), as one predicate on the parsed request. -/
def missingRequired (r : HikvisionRequest) : Bool :=
  (r.action == some "getToken" && (falsyS r.appKey || falsyS r.secretKey)) ||
  (r.action == some "testDevice" && falsyS r.deviceId) ||
  (r.action == some "registerPerson" &&
    (r.personData.isNone || extractBranchId r == "")) ||
  (r.action == some "assignAccessPrivileges" &&
    (falsyS (r.personData.bind PersonData.id) || (r.doorList.getD []).length == 0
      || falsyS r.deviceId)) ||
  (r.action == some "createSite" && (falsyS r.siteName || extractBranchId r == ""))

/-- C1 (amended): a request whose selected action is missing a required
field is answered with a failure envelope before any vendor call is made
and with the store untouched, but the HTTP status is 500 (the validation
`throw` is answered by the outer catch), not a 400-class status as the
claim states. -/
theorem validation_short_circuits (ctx : Ctx) (db : Db) (r : HikvisionRequest)
    (h : missingRequired r = true) :
    (serve ctx db "POST" (.ok r)).response.status = 500 ∧
    (∃ msg, (serve ctx db "POST" (.ok r)).response.body =
      some (.obj [("success", .bool false), ("error", .str msg)])) ∧
    (serve ctx db "POST" (.ok r)).calls = [] ∧
    (serve ctx db "POST" (.ok r)).db = db := by
  have hPost : ("POST" == "OPTIONS") = false := by decide
  have shape : ∀ m : String, (serveCatch db m).response.status = 500 ∧
      (∃ msg, (serveCatch db m).response.body =
        some (.obj [("success", .bool false), ("error", .str msg)])) ∧
      (serveCatch db m).calls = [] ∧ (serveCatch db m).db = db := by
    intro m
    exact ⟨rfl, ⟨m, rfl⟩, rfl, rfl⟩
  simp only [missingRequired, Bool.or_eq_true, Bool.and_eq_true, beq_iff_eq,
    Option.isNone_iff_eq_none] at h
  rcases h with (((⟨ha, hc⟩ | ⟨ha, hc⟩) | ⟨ha, hc⟩) | ⟨ha, hc⟩) | ⟨ha, hc⟩
  · have e : serve ctx db "POST" (.ok r) =
        serveCatch db "appKey and secretKey are required for getToken action" := by
      rcases hc with hc | hc <;> simp [serve, hPost, ha, hc]
    rw [e]; exact shape _
  · have e : serve ctx db "POST" (.ok r) =
        serveCatch db "deviceId is required for testDevice action" := by
      simp [serve, hPost, ha, hc]
    rw [e]; exact shape _
  · rcases hc with hc | hc
    · have e : serve ctx db "POST" (.ok r) =
          serveCatch db "personData is required for registerPerson action" := by
        simp [serve, hPost, ha, hc]
      rw [e]; exact shape _
    · rcases hp : r.personData with _ | pd
      · have e : serve ctx db "POST" (.ok r) =
            serveCatch db "personData is required for registerPerson action" := by
          simp [serve, hPost, ha, hp]
        rw [e]; exact shape _
      · have e : serve ctx db "POST" (.ok r) =
            serveCatch db "branchId is required for registerPerson action" := by
          simp [serve, hPost, ha, hp, hc]
        rw [e]; exact shape _
  · have e : serve ctx db "POST" (.ok r) = serveCatch db
        "personData.id and doorList are required for assignAccessPrivileges action"
        ∨ serve ctx db "POST" (.ok r) =
          serveCatch db "deviceId is required for assignAccessPrivileges action" := by
      rcases hc with (hc | hc) | hc
      · exact Or.inl (by simp [serve, hPost, ha, hc])
      · exact Or.inl (by simp [serve, hPost, ha, hc])
      · by_cases hfirst : (falsyS (r.personData.bind PersonData.id)
            || (r.doorList.getD []).length == 0) = true
        · exact Or.inl (by
            rcases Bool.or_eq_true_iff.mp hfirst with hc2 | hc2 <;>
              simp [serve, hPost, ha, hc2])
        · simp only [Bool.or_eq_true, not_or, Bool.not_eq_true] at hfirst
          exact Or.inr (by simp [serve, hPost, ha, hfirst.1, hfirst.2, hc])
    rcases e with e | e <;> (rw [e]; exact shape _)
  · rcases hc with hc | hc
    · have e : serve ctx db "POST" (.ok r) =
          serveCatch db "siteName is required for createSite action" := by
        simp [serve, hPost, ha, hc]
      rw [e]; exact shape _
    · by_cases hsn : falsyS r.siteName = true
      · have e : serve ctx db "POST" (.ok r) =
            serveCatch db "siteName is required for createSite action" := by
          simp [serve, hPost, ha, hsn]
        rw [e]; exact shape _
      · have hsn' : falsyS r.siteName = false := by
          revert hsn; cases falsyS r.siteName <;> simp
        have e : serve ctx db "POST" (.ok r) =
            serveCatch db "branchId is required for createSite action" := by
          simp [serve, hPost, ha, hsn', hc]
        rw [e]; exact shape _

/-- Witness for the amended validation claim: a `getToken` request with
no appKey and no secretKey. -/
theorem validation_short_circuits_witness :
    (serve ⟨⟨.error "", .error "", .error "", .error "", .error "", .error ""⟩, {}, 0⟩
        {} "POST" (.ok { action := some "getToken" })).response.status = 500 ∧
    (∃ msg, (serve ⟨⟨.error "", .error "", .error "", .error "", .error "", .error ""⟩, {}, 0⟩
        {} "POST" (.ok { action := some "getToken" })).response.body =
      some (.obj [("success", .bool false), ("error", .str msg)])) ∧
    (serve ⟨⟨.error "", .error "", .error "", .error "", .error "", .error ""⟩, {}, 0⟩
        {} "POST" (.ok { action := some "getToken" })).calls = [] ∧
    (serve ⟨⟨.error "", .error "", .error "", .error "", .error "", .error ""⟩, {}, 0⟩
        {} "POST" (.ok { action := some "getToken" })).db = {} :=
  validation_short_circuits _ _ _ (by decide)

/-- C1 counterexample: a `getToken` request missing appKey/secretKey is
answered with HTTP 500 — a failure response, but not a 400-class status
as the claim states (no vendor call is made). -/
theorem validation_status_counterexample :
    (serve ⟨⟨.error "", .error "", .error "", .error "", .error "", .error ""⟩, {}, 0⟩
        {} "POST" (.ok { action := some "getToken" })).response.status = 500 ∧
    ¬(400 ≤ (serve ⟨⟨.error "", .error "", .error "", .error "", .error "", .error ""⟩, {}, 0⟩
        {} "POST" (.ok { action := some "getToken" })).response.status ∧
      (serve ⟨⟨.error "", .error "", .error "", .error "", .error "", .error ""⟩, {}, 0⟩
        {} "POST" (.ok { action := some "getToken" })).response.status < 500) ∧
    (serve ⟨⟨.error "", .error "", .error "", .error "", .error "", .error ""⟩, {}, 0⟩
        {} "POST" (.ok { action := some "getToken" })).calls = [] :=
  ⟨rfl, by decide, rfl⟩

/-- A tenant with zero stored credential rows always hits the
missing-token guard. -/
theorem tokenMissing_of_no_rows (ts : List TokenRow) (b : String)
    (h : ts.filter (fun r => r.branch_id == b) = []) : tokenMissing ts b = true := by
  simp [tokenMissing, getLatestToken, h]

/-- A non-falsy optional string defaults (`getD ""`) to a nonempty
string. -/
theorem getD_ne_empty_of_not_falsy (x : Option String) (h : falsyS x = false) :
    (x.getD "" == "") = false := by
  cases x with
  | none => simp [falsyS] at h
  | some s => simpa [falsyS] using h

/-- C6: for each credential-requiring action (testDevice, registerPerson,
assignAccessPrivileges, createSite, searchSites), a tenant with zero
stored credentials gets a result of success=false carrying the fixed
"no valid access token" message, served with the envelope-default HTTP
status 200 (not an auth-class status); for assignAccessPrivileges and
createSite the handler nests that failure envelope under a success=true
wrapper, and in every case no vendor call is made. -/
theorem noCredential_fixed_message_status200 :
    (∀ (ctx : Ctx) (db : Db) (r : HikvisionRequest),
      r.action = some "testDevice" → falsyS r.deviceId = false →
      falsyS r.apiUrl = false →
      db.hikvision_tokens.filter (fun t => t.branch_id == extractBranchId r) = [] →
      serve ctx db "POST" (.ok r) =
        ⟨⟨200, jsonHeaders,
          some (Envelope.toJs { success := false, error := some noTokenMsg })⟩,
          db, []⟩) ∧
    (∀ (ctx : Ctx) (db : Db) (r : HikvisionRequest) (pd : PersonData),
      r.action = some "registerPerson" → r.personData = some pd →
      falsyS pd.name = false → falsyS r.apiUrl = false →
      (extractBranchId r == "") = false →
      db.hikvision_tokens.filter (fun t => t.branch_id == extractBranchId r) = [] →
      serve ctx db "POST" (.ok r) =
        ⟨⟨200, jsonHeaders,
          some (Envelope.toJs { success := false, error := some noTokenMsg })⟩,
          db, []⟩) ∧
    (∀ (ctx : Ctx) (db : Db) (r : HikvisionRequest) (pd : PersonData) (dev : DeviceRow),
      r.action = some "assignAccessPrivileges" → r.personData = some pd →
      falsyS pd.id = false → (r.doorList.getD []).length ≠ 0 →
      falsyS r.deviceId = false →
      db.hikvision_devices.find? (fun d => d.device_id == r.deviceId.getD "") = some dev →
      db.hikvision_tokens.filter (fun t => t.branch_id == dev.branch_id) = [] →
      serve ctx db "POST" (.ok r) =
        ⟨⟨200, jsonHeaders,
          some (Envelope.toJs {
            success := true,
            message := some "Access privileges assigned successfully",
            data := some (Envelope.toJs { success := false, error := some noTokenMsg }) })⟩,
          db, []⟩) ∧
    (∀ (ctx : Ctx) (db : Db) (r : HikvisionRequest),
      r.action = some "createSite" → falsyS r.siteName = false →
      (extractBranchId r == "") = false →
      db.hikvision_tokens.filter (fun t => t.branch_id == extractBranchId r) = [] →
      serve ctx db "POST" (.ok r) =
        ⟨⟨200, jsonHeaders,
          some (Envelope.toJs {
            success := true,
            message := some "Site created successfully",
            data := some (Envelope.toJs { success := false, error := some noTokenMsg }) })⟩,
          db, []⟩) ∧
    (∀ (ctx : Ctx) (db : Db) (r : HikvisionRequest),
      r.action = some "searchSites" → falsyS r.apiUrl = false →
      db.hikvision_tokens.filter (fun t => t.branch_id == extractBranchId r) = [] →
      serve ctx db "POST" (.ok r) =
        ⟨⟨200, jsonHeaders,
          some (Envelope.toJs { success := false, error := some noTokenMsg })⟩,
          db, []⟩) := by
  have hPost : ("POST" == "OPTIONS") = false := by decide
  refine ⟨?_, ?_, ?_, ?_, ?_⟩
  · intro ctx db r ha hdev hurl hts
    have hu := getD_ne_empty_of_not_falsy _ hurl
    have hm := tokenMissing_of_no_rows _ _ hts
    simp [serve, hPost, ha, hdev, testDevice, hu, hm]
  · intro ctx db r pd ha hp hname hurl hb hts
    have hu := getD_ne_empty_of_not_falsy _ hurl
    have hm := tokenMissing_of_no_rows _ _ hts
    simp [serve, hPost, ha, hp, hb, registerPerson, hu, hname, hm]
  · intro ctx db r pd dev ha hp hid hdl hdev hfind hts
    have hm := tokenMissing_of_no_rows _ _ hts
    simp [serve, hPost, ha, hp, hid, hdl, hdev, assignAccessPrivileges, hfind, hm]
  · intro ctx db r ha hsn hb hts
    have hm := tokenMissing_of_no_rows _ _ hts
    simp [serve, hPost, ha, hsn, hb, createSite, hm]
  · intro ctx db r ha hurl hts
    have hu := getD_ne_empty_of_not_falsy _ hurl
    have hm := tokenMissing_of_no_rows _ _ hts
    simp [serve, hPost, ha, searchSites, hu, hm]

/-- Witness for the no-credential claim: concrete empty-token-store
requests for each of the five credential-requiring actions. -/
theorem noCredential_fixed_message_status200_witness :
    (serve ⟨⟨.error "", .error "", .error "", .error "", .error "", .error ""⟩, {}, 0⟩
      {} "POST"
      (.ok { action := some "testDevice", apiUrl := some "http://x", deviceId := some "d1" }) =
      ⟨⟨200, jsonHeaders,
        some (Envelope.toJs { success := false, error := some noTokenMsg })⟩, {}, []⟩) ∧
    (serve ⟨⟨.error "", .error "", .error "", .error "", .error "", .error ""⟩, {}, 0⟩
      {} "POST"
      (.ok { action := some "registerPerson", apiUrl := some "http://x", personData := some { name := some "Alice" } }) =
      ⟨⟨200, jsonHeaders,
        some (Envelope.toJs { success := false, error := some noTokenMsg })⟩, {}, []⟩) ∧
    (serve ⟨⟨.error "", .error "", .error "", .error "", .error "", .error ""⟩, {}, 0⟩
      { hikvision_devices := [⟨"d1", "b1"⟩] } "POST"
      (.ok { action := some "assignAccessPrivileges", personData := some { id := some "p1" }, doorList := some [.num 1], deviceId := some "d1" }) =
      ⟨⟨200, jsonHeaders,
        some (Envelope.toJs {
          success := true,
          message := some "Access privileges assigned successfully",
          data := some (Envelope.toJs { success := false, error := some noTokenMsg }) })⟩,
        { hikvision_devices := [⟨"d1", "b1"⟩] }, []⟩) ∧
    (serve ⟨⟨.error "", .error "", .error "", .error "", .error "", .error ""⟩, {}, 0⟩
      {} "POST" (.ok { action := some "createSite", siteName := some "S" }) =
      ⟨⟨200, jsonHeaders,
        some (Envelope.toJs {
          success := true,
          message := some "Site created successfully",
          data := some (Envelope.toJs { success := false, error := some noTokenMsg }) })⟩,
        {}, []⟩) ∧
    (serve ⟨⟨.error "", .error "", .error "", .error "", .error "", .error ""⟩, {}, 0⟩
      {} "POST" (.ok { action := some "searchSites", apiUrl := some "http://x" }) =
      ⟨⟨200, jsonHeaders,
        some (Envelope.toJs { success := false, error := some noTokenMsg })⟩, {}, []⟩) :=
  ⟨noCredential_fixed_message_status200.1 _ _ _ rfl rfl rfl rfl,
   noCredential_fixed_message_status200.2.1 _ _ _ _ rfl rfl rfl rfl rfl rfl,
   noCredential_fixed_message_status200.2.2.1 _ _ _ { id := some "p1" } ⟨"d1", "b1"⟩
     rfl rfl rfl (by decide) rfl rfl rfl,
   noCredential_fixed_message_status200.2.2.2.1 _ _ _ rfl rfl rfl rfl,
   noCredential_fixed_message_status200.2.2.2.2 _ _ _ rfl rfl rfl⟩

/-- C2 counterexample: a dispatched testDevice whose vendor code is the
catalogued EVZ20002 (catalog status 404) is answered with HTTP 200 and
only the catalogued message/code in the envelope — the catalogued HTTP
status is not surfaced. -/
theorem vendorError_status_counterexample :
    (serve ⟨⟨.error "", .ok { code := some "EVZ20002" }, .error "", .error "", .error "", .error ""⟩, {}, 0⟩
      { hikvision_tokens := [⟨"tok", "r", "Bearer", 0, 0, "dom", "b1", 0⟩] } "POST"
      (.ok { action := some "testDevice", apiUrl := some "http://x", deviceId := some "d1", branchId := some "b1" })).response.status = 200 ∧
    (getHikvisionError "EVZ20002").status = 404 ∧
    (serve ⟨⟨.error "", .ok { code := some "EVZ20002" }, .error "", .error "", .error "", .error ""⟩, {}, 0⟩
      { hikvision_tokens := [⟨"tok", "r", "Bearer", 0, 0, "dom", "b1", 0⟩] } "POST"
      (.ok { action := some "testDevice", apiUrl := some "http://x", deviceId := some "d1", branchId := some "b1" })).response.body =
      some (Envelope.toJs { success := false, error := some "Device does not exist", errorCode := some "EVZ20002" }) ∧
    (200 : Nat) ≠ 404 :=
  ⟨rfl, rfl, rfl, by decide⟩

/-- C2 (amended): for the five catalog-using operations, a vendor code
other than the string 0 yields a failure envelope carrying exactly the
Error Catalog message for that code (catalogued message, or the fallback
embedding the raw code) together with the raw code; the catalogued HTTP
status is dropped — the wrapped HTTP response status is the envelope
default 200.  (`getToken` bypasses the catalog entirely and is not
covered here.) -/
theorem vendorError_catalog_message_surfaced :
    (∀ (ctx : Ctx) (db : Db) (s : Settings) (body : DeviceBody) (c : String),
      ctx.vendor.deviceResp = .ok body → body.code = some c → c ≠ "0" →
      (s.api_url == "") = false → tokenMissing db.hikvision_tokens s.branch_id = false →
      (testDevice ctx db s).1 =
        { success := false, error := some (getHikvisionError c).message, errorCode := some c }) ∧
    (∀ (ctx : Ctx) (db : Db) (s : Settings) (pd : PersonData) (b : String)
        (body : PersonBody) (c : String),
      ctx.vendor.personResp = .ok body → body.code = some c → c ≠ "0" →
      (s.api_url == "") = false → falsyS pd.name = false →
      tokenMissing db.hikvision_tokens b = false →
      (registerPerson ctx db s pd b).1 =
        { success := false, message := some (getHikvisionError c).message, errorCode := some c }) ∧
    (∀ (ctx : Ctx) (db : Db) (did pid : String) (doors : List JsNum)
        (vs ve : Option String) (dev : DeviceRow) (st : SettingsRow)
        (body : PrivBody) (c : String),
      ctx.vendor.privilegeResp = .ok body → body.code = some c → c ≠ "0" →
      db.hikvision_devices.find? (fun d => d.device_id == did) = some dev →
      tokenMissing db.hikvision_tokens dev.branch_id = false →
      db.hikvision_api_settings.find? (fun x => x.branch_id == dev.branch_id) = some st →
      (st.api_url == "") = false →
      (assignAccessPrivileges ctx db did pid doors vs ve).result =
        { success := false, message := some (getHikvisionError c).message, errorCode := some c }) ∧
    (∀ (ctx : Ctx) (db : Db) (sn b : String) (st : SettingsRow)
        (body : SiteAddBody) (c : String),
      ctx.vendor.siteAddResp = .ok body → body.code = some c → c ≠ "0" →
      tokenMissing db.hikvision_tokens b = false →
      db.hikvision_api_settings.find? (fun x => x.branch_id == b) = some st →
      (st.api_url == "") = false →
      (createSite ctx db sn b).1 =
        { success := false, message := some (getHikvisionError c).message, errorCode := some c }) ∧
    (∀ (ctx : Ctx) (db : Db) (u b sn si : String) (body : SearchBody) (c : String),
      ctx.vendor.siteSearchResp = .ok body → body.code = some c → c ≠ "0" →
      (u == "") = false → tokenMissing db.hikvision_tokens b = false →
      (searchSites ctx db u b sn si).1 =
        { success := false, message := some (getHikvisionError c).message, errorCode := some c }) ∧
    (∀ (ctx : Ctx) (db : Db) (r : HikvisionRequest),
      r.action = some "testDevice" → falsyS r.deviceId = false →
      (serve ctx db "POST" (.ok r)).response.status = 200) ∧
    (∀ (ctx : Ctx) (db : Db) (r : HikvisionRequest) (pd : PersonData),
      r.action = some "registerPerson" → r.personData = some pd →
      (extractBranchId r == "") = false →
      (serve ctx db "POST" (.ok r)).response.status = 200) ∧
    (∀ (ctx : Ctx) (db : Db) (r : HikvisionRequest),
      r.action = some "assignAccessPrivileges" →
      falsyS (r.personData.bind PersonData.id) = false →
      (r.doorList.getD []).length ≠ 0 → falsyS r.deviceId = false →
      (serve ctx db "POST" (.ok r)).response.status = 200) ∧
    (∀ (ctx : Ctx) (db : Db) (r : HikvisionRequest),
      r.action = some "createSite" → falsyS r.siteName = false →
      (extractBranchId r == "") = false →
      (serve ctx db "POST" (.ok r)).response.status = 200) ∧
    (∀ (ctx : Ctx) (db : Db) (r : HikvisionRequest),
      r.action = some "searchSites" →
      (serve ctx db "POST" (.ok r)).response.status = 200) := by
  have hPost : ("POST" == "OPTIONS") = false := by decide
  refine ⟨?_, ?_, ?_, ?_, ?_, ?_, ?_, ?_, ?_, ?_⟩
  · intro ctx db s body c hresp hcode hc hurl htm
    simp [testDevice, hurl, htm, hresp, hcode, hc, jsStr]
  · intro ctx db s pd b body c hresp hcode hc hurl hname htm
    simp [registerPerson, hurl, hname, htm, hresp, hcode, hc, jsStr]
  · intro ctx db did pid doors vs ve dev st body c hresp hcode hc hfind htm hst hurl
    simp [assignAccessPrivileges, hfind, htm, hst, hurl, hresp, hcode, hc, jsStr]
  · intro ctx db sn b st body c hresp hcode hc htm hst hurl
    simp [createSite, htm, hst, hurl, hresp, hcode, hc, jsStr]
  · intro ctx db u b sn si body c hresp hcode hc hurl htm
    simp [searchSites, hurl, htm, hresp, hcode, hc, jsStr]
  · intro ctx db r ha hdev
    simp [serve, hPost, ha, hdev]
  · intro ctx db r pd ha hp hb
    simp [serve, hPost, ha, hp, hb]
  · intro ctx db r ha hid hdl hdev
    simp [serve, hPost, ha, hid, hdl, hdev]
  · intro ctx db r ha hsn hb
    simp [serve, hPost, ha, hsn, hb]
  · intro ctx db r ha
    simp [serve, hPost, ha]

/-- Witness for the amended vendor-error claim: each catalog-using
operation at a concrete non-zero vendor code, and each dispatched action
answered with status 200. -/
theorem vendorError_catalog_message_surfaced_witness :
    ((testDevice ⟨⟨.error "", .ok { code := some "EVZ20002" }, .error "", .error "", .error "", .error ""⟩, {}, 0⟩
      { hikvision_tokens := [⟨"tok", "r", "Bearer", 0, 0, "dom", "b1", 0⟩] }
      ⟨"http://x", "b1", some "d1"⟩).1 =
      { success := false, error := some (getHikvisionError "EVZ20002").message, errorCode := some "EVZ20002" }) ∧
    ((registerPerson ⟨⟨.error "", .error "", .ok { code := some "XYZ" }, .error "", .error "", .error ""⟩, {}, 0⟩
      { hikvision_tokens := [⟨"tok", "r", "Bearer", 0, 0, "dom", "b1", 0⟩] }
      ⟨"http://x", "b1", some "d1"⟩ { name := some "Al" } "b1").1 =
      { success := false, message := some (getHikvisionError "XYZ").message, errorCode := some "XYZ" }) ∧
    ((assignAccessPrivileges ⟨⟨.error "", .error "", .error "", .ok { code := some "EVZ10029" }, .error "", .error ""⟩, {}, 0⟩
      { hikvision_tokens := [⟨"tok", "r", "Bearer", 0, 0, "dom", "b1", 0⟩], hikvision_devices := [⟨"d1", "b1"⟩], hikvision_api_settings := [⟨"b1", "http://x", none, none, 0⟩] }
      "d1" "p1" [some 1] none none).result =
      { success := false, message := some (getHikvisionError "EVZ10029").message, errorCode := some "EVZ10029" }) ∧
    ((createSite ⟨⟨.error "", .error "", .error "", .error "", .ok { code := some "0x30001000" }, .error ""⟩, {}, 0⟩
      { hikvision_tokens := [⟨"tok", "r", "Bearer", 0, 0, "dom", "b1", 0⟩], hikvision_devices := [⟨"d1", "b1"⟩], hikvision_api_settings := [⟨"b1", "http://x", none, none, 0⟩] }
      "S" "b1").1 =
      { success := false, message := some (getHikvisionError "0x30001000").message, errorCode := some "0x30001000" }) ∧
    ((searchSites ⟨⟨.error "", .error "", .error "", .error "", .error "", .ok { code := some "Q" }⟩, {}, 0⟩
      { hikvision_tokens := [⟨"tok", "r", "Bearer", 0, 0, "dom", "b1", 0⟩] }
      "http://x" "b1" "" "").1 =
      { success := false, message := some (getHikvisionError "Q").message, errorCode := some "Q" }) ∧
    ((serve ⟨⟨.error "", .error "", .error "", .error "", .error "", .error ""⟩, {}, 0⟩
      {} "POST" (.ok { action := some "testDevice", deviceId := some "d1" })).response.status = 200) ∧
    ((serve ⟨⟨.error "", .error "", .error "", .error "", .error "", .error ""⟩, {}, 0⟩
      {} "POST" (.ok { action := some "registerPerson", personData := some {} })).response.status = 200) ∧
    ((serve ⟨⟨.error "", .error "", .error "", .error "", .error "", .error ""⟩, {}, 0⟩
      {} "POST" (.ok { action := some "assignAccessPrivileges", personData := some { id := some "p1" }, doorList := some [.num 1], deviceId := some "d1" })).response.status = 200) ∧
    ((serve ⟨⟨.error "", .error "", .error "", .error "", .error "", .error ""⟩, {}, 0⟩
      {} "POST" (.ok { action := some "createSite", siteName := some "S" })).response.status = 200) ∧
    ((serve ⟨⟨.error "", .error "", .error "", .error "", .error "", .error ""⟩, {}, 0⟩
      {} "POST" (.ok { action := some "searchSites" })).response.status = 200) :=
  ⟨vendorError_catalog_message_surfaced.1 _ _ _ { code := some "EVZ20002" } "EVZ20002"
     rfl rfl (by decide) rfl rfl,
   vendorError_catalog_message_surfaced.2.1 _ _ _ _ _ { code := some "XYZ" } "XYZ"
     rfl rfl (by decide) rfl rfl rfl,
   vendorError_catalog_message_surfaced.2.2.1 _ _ _ _ _ _ _ ⟨"d1", "b1"⟩
     ⟨"b1", "http://x", none, none, 0⟩ { code := some "EVZ10029" } "EVZ10029"
     rfl rfl (by decide) rfl rfl rfl rfl,
   vendorError_catalog_message_surfaced.2.2.2.1 _ _ _ _ ⟨"b1", "http://x", none, none, 0⟩
     { code := some "0x30001000" } "0x30001000" rfl rfl (by decide) rfl rfl rfl,
   vendorError_catalog_message_surfaced.2.2.2.2.1 _ _ _ _ _ _ { code := some "Q" } "Q"
     rfl rfl (by decide) rfl rfl,
   vendorError_catalog_message_surfaced.2.2.2.2.2.1 _ _ _ rfl rfl,
   vendorError_catalog_message_surfaced.2.2.2.2.2.2.1 _ _ _ {} rfl rfl rfl,
   vendorError_catalog_message_surfaced.2.2.2.2.2.2.2.1 _ _ _ rfl rfl (by decide) rfl,
   vendorError_catalog_message_surfaced.2.2.2.2.2.2.2.2.1 _ _ _ rfl rfl rfl,
   vendorError_catalog_message_surfaced.2.2.2.2.2.2.2.2.2 _ _ _ rfl⟩

/-- Every row matching the upserted key in the upserted token table is
the new row. -/
theorem eq_row_of_mem_filter_upsertToken (ts : List TokenRow) (row x : TokenRow)
    (hx : x ∈ (upsertToken ts row).filter (fun r => r.branch_id == row.branch_id)) :
    x = row := by
  unfold upsertToken at hx
  cases h : ts.any (fun r => r.branch_id == row.branch_id) with
  | false =>
    rw [h] at hx
    simp only [Bool.false_eq_true, if_false, List.filter_append, List.mem_append] at hx
    rcases hx with hx | hx
    · rcases List.mem_filter.mp hx with ⟨hmem, hp⟩
      rw [List.any_eq_false] at h
      exact absurd hp (by simpa using h x hmem)
    · rcases List.mem_filter.mp hx with ⟨hm, _⟩
      simpa using hm
  | true =>
    rw [h] at hx
    simp only [if_true] at hx
    rcases List.mem_filter.mp hx with ⟨hmem, hp⟩
    rcases List.mem_map.mp hmem with ⟨r, hr, hfr⟩
    by_cases hpr : (r.branch_id == row.branch_id) = true
    · rw [if_pos hpr] at hfr; exact hfr.symm
    · rw [if_neg hpr] at hfr
      rw [← hfr] at hp
      exact absurd hp hpr

/-- The upserted row always survives in the upserted token table. -/
theorem row_mem_filter_upsertToken (ts : List TokenRow) (row : TokenRow) :
    row ∈ (upsertToken ts row).filter (fun r => r.branch_id == row.branch_id) := by
  unfold upsertToken
  cases h : ts.any (fun r => r.branch_id == row.branch_id) with
  | false => simp
  | true =>
    rcases List.any_eq_true.mp h with ⟨r, hr, hpr⟩
    refine List.mem_filter.mpr ⟨List.mem_map.mpr ⟨r, hr, ?_⟩, by simp⟩
    rw [if_pos hpr]

/-- Folding the latest-by-update-time selection over a list in which
every element is `row`, starting from `some row`, yields `some row`. -/
theorem latest_foldl_const (l : List TokenRow) (row : TokenRow)
    (h : ∀ x ∈ l, x = row) :
    l.foldl (fun best r =>
      match best with
      | none => some r
      | some b => if b.updated_at ≥ r.updated_at then some b else some r)
      (some row) = some row := by
  induction l with
  | nil => rfl
  | cons a t ih =>
    have ha : a = row := h a (by simp)
    subst ha
    simp only [List.foldl_cons]
    have : (if a.updated_at ≥ a.updated_at then some a else some a) = some a := by
      split <;> rfl
    rw [this]
    exact ih (fun x hx => h x (by simp [hx]))

/-- After an upsert, the latest-by-update-time read for the upserted key
returns exactly the upserted row. -/
theorem getLatestToken_upsertToken (ts : List TokenRow) (row : TokenRow) :
    getLatestToken (upsertToken ts row) row.branch_id = some row := by
  have hmem := row_mem_filter_upsertToken ts row
  rcases hf : (upsertToken ts row).filter (fun r => r.branch_id == row.branch_id)
    with _ | ⟨a, t⟩
  · rw [hf] at hmem
    exact absurd hmem (List.not_mem_nil row)
  · have hall : ∀ x ∈ a :: t, x = row := by
      intro x hx
      exact eq_row_of_mem_filter_upsertToken ts row x (by rw [hf]; exact hx)
    have ha : a = row := hall a (by simp)
    unfold getLatestToken
    rw [hf, ha]
    simp only [List.foldl_cons]
    exact latest_foldl_const t row (fun x hx => hall x (by simp [hx]))

/-- After an upsert of a row with a nonempty token, the missing-token
guard for that tenant is off. -/
theorem tokenMissing_upsertToken (ts : List TokenRow) (row : TokenRow) :
    tokenMissing (upsertToken ts row) row.branch_id = (row.access_token == "") := by
  simp [tokenMissing, getLatestToken_upsertToken]

/-- At most one credential row per tenant: the invariant maintained by
the unique index behind `onConflict: 'branch_id'`. -/
def tokensUnique (ts : List TokenRow) : Prop :=
  ts.Pairwise (fun a b => a.branch_id ≠ b.branch_id)

/-- Replacing the (unique) conflicting row leaves exactly one row for
the upserted key. -/
theorem filter_map_upsert (row : TokenRow) (t : List TokenRow)
    (hu : t.Pairwise (fun a b => a.branch_id ≠ b.branch_id))
    (hany : t.any (fun r => r.branch_id == row.branch_id) = true) :
    (t.map (fun r => if r.branch_id == row.branch_id then row else r)).filter
      (fun r => r.branch_id == row.branch_id) = [row] := by
  induction t with
  | nil => simp at hany
  | cons a t' ih =>
    rcases List.pairwise_cons.mp hu with ⟨ha, hu'⟩
    simp only [List.map_cons, List.filter_cons]
    by_cases hpa : (a.branch_id == row.branch_id) = true
    · rw [if_pos hpa]
      have habr : a.branch_id = row.branch_id := by simpa using hpa
      have htail : (t'.map (fun r => if r.branch_id == row.branch_id then row else r)).filter
          (fun r => r.branch_id == row.branch_id) = [] := by
        rw [List.filter_eq_nil_iff]
        intro x hx
        rcases List.mem_map.mp hx with ⟨b, hb, hfb⟩
        have hbne : (b.branch_id == row.branch_id) = false := by
          have := ha b hb
          rw [habr] at this
          simpa using fun hh => this hh.symm
        rw [if_neg (by simp [hbne])] at hfb
        rw [← hfb]
        simp [hbne]
      rw [if_pos (show (row.branch_id == row.branch_id) = true by simp), htail]
    · rw [if_neg hpa]
      have hpa' : (a.branch_id == row.branch_id) = false := by
        revert hpa; cases a.branch_id == row.branch_id <;> simp
      have hany' : t'.any (fun r => r.branch_id == row.branch_id) = true := by
        simpa [hpa'] using hany
      rw [if_neg (by simp [hpa'])]
      exact ih hu' hany'

/-- The single-row-per-tenant invariant is preserved by the upsert. -/
theorem tokensUnique_upsertToken (ts : List TokenRow) (row : TokenRow)
    (hu : tokensUnique ts) : tokensUnique (upsertToken ts row) := by
  unfold upsertToken tokensUnique
  cases h : ts.any (fun r => r.branch_id == row.branch_id) with
  | false =>
    simp only [Bool.false_eq_true, if_false]
    rw [List.pairwise_append]
    refine ⟨hu, by simp, ?_⟩
    intro a ha b hb
    have := List.any_eq_false.mp h a ha
    simp only [List.mem_singleton] at hb
    subst hb
    simpa using this
  | true =>
    simp only [if_true]
    rw [List.pairwise_map]
    refine hu.imp ?_
    intro a b hab
    have hpres : ∀ r : TokenRow,
        ((if r.branch_id == row.branch_id then row else r)).branch_id = r.branch_id := by
      intro r
      by_cases hr : (r.branch_id == row.branch_id) = true
      · rw [if_pos hr]
        have hh : r.branch_id = row.branch_id := by simpa using hr
        exact hh.symm
      · rw [if_neg hr]
    rw [hpres a, hpres b]
    exact hab

/-- Under the single-row invariant, the upsert leaves exactly one row
for the upserted tenant: the new one. -/
theorem upsertToken_filter_eq (ts : List TokenRow) (row : TokenRow)
    (hu : tokensUnique ts) :
    (upsertToken ts row).filter (fun r => r.branch_id == row.branch_id) = [row] := by
  unfold upsertToken
  cases h : ts.any (fun r => r.branch_id == row.branch_id) with
  | false =>
    simp only [Bool.false_eq_true, if_false, List.filter_append]
    have h1 : ts.filter (fun r => r.branch_id == row.branch_id) = [] := by
      rw [List.filter_eq_nil_iff]
      intro a ha
      simpa using List.any_eq_false.mp h a ha
    rw [h1]
    simp
  | true =>
    simp only [if_true]
    exact filter_map_upsert row ts hu h

/-- Specialisation of the upsert lemmas to the row `getToken` writes. -/
theorem tokenMissing_upsert_mk (ts : List TokenRow) (d : TokenData) (b : String) (now : Nat) :
    tokenMissing (upsertToken ts (mkTokenRow d b now)) b = (d.accessToken == "") := by
  have h := tokenMissing_upsertToken ts (mkTokenRow d b now)
  simpa [mkTokenRow] using h

/-- On the success path (vendor 2xx, benign code, data present, store
write succeeds, nonempty token, site search succeeds), `getToken`
reports success and its only effect on the credential table is the
single upsert of the new row. -/
theorem getToken_success_parts (ctx : Ctx) (db : Db)
    (apiUrl appKey secretKey branchId : String)
    (resp : TokenHttp) (d : TokenData) (sb : SearchBody)
    (hresp : ctx.vendor.tokenResp = .ok resp) (hok : resp.ok = true)
    (hcode : tokenCodeError resp.code = false) (hdata : resp.data = some d)
    (hfault : ctx.faults.tokenUpsertFail = false)
    (hurl : (apiUrl == "") = false)
    (htok : (d.accessToken == "") = false)
    (hsearch : ctx.vendor.siteSearchResp = .ok sb) (hsb : sb.code = some "0") :
    (getToken ctx db apiUrl appKey secretKey branchId).1.success = true ∧
    (getToken ctx db apiUrl appKey secretKey branchId).2.1.hikvision_tokens =
      upsertToken db.hikvision_tokens (mkTokenRow d branchId ctx.now) := by
  simp [getToken, searchSites, hresp, hok, hcode, hdata, hfault, hurl,
    tokenMissing_upsert_mk, htok, hsearch, hsb, apply_ite Db.hikvision_tokens]

/-- C4: starting from a store satisfying the single-row-per-tenant
invariant, two sequential successful `getToken` calls for the same
tenant leave exactly one credential row for that tenant — the one
written by the later call — and the latest-by-update-time read used by
all other operations returns exactly that row. -/
theorem twoGetToken_single_latest_credential
    (ctx1 ctx2 : Ctx) (db0 : Db) (u1 u2 k1 k2 s1 s2 t : String)
    (resp1 resp2 : TokenHttp) (d1 d2 : TokenData) (sb1 sb2 : SearchBody)
    (hu : tokensUnique db0.hikvision_tokens)
    (h1a : ctx1.vendor.tokenResp = .ok resp1) (h1b : resp1.ok = true)
    (h1c : tokenCodeError resp1.code = false) (h1d : resp1.data = some d1)
    (h1e : ctx1.faults.tokenUpsertFail = false) (h1f : (u1 == "") = false)
    (h1g : (d1.accessToken == "") = false)
    (h1h : ctx1.vendor.siteSearchResp = .ok sb1) (h1i : sb1.code = some "0")
    (h2a : ctx2.vendor.tokenResp = .ok resp2) (h2b : resp2.ok = true)
    (h2c : tokenCodeError resp2.code = false) (h2d : resp2.data = some d2)
    (h2e : ctx2.faults.tokenUpsertFail = false) (h2f : (u2 == "") = false)
    (h2g : (d2.accessToken == "") = false)
    (h2h : ctx2.vendor.siteSearchResp = .ok sb2) (h2i : sb2.code = some "0") :
    (getToken ctx1 db0 u1 k1 s1 t).1.success = true ∧
    (getToken ctx2 (getToken ctx1 db0 u1 k1 s1 t).2.1 u2 k2 s2 t).1.success = true ∧
    (getToken ctx2 (getToken ctx1 db0 u1 k1 s1 t).2.1 u2 k2 s2 t).2.1.hikvision_tokens.filter
      (fun r => r.branch_id == t) = [mkTokenRow d2 t ctx2.now] ∧
    getLatestToken
      (getToken ctx2 (getToken ctx1 db0 u1 k1 s1 t).2.1 u2 k2 s2 t).2.1.hikvision_tokens t =
      some (mkTokenRow d2 t ctx2.now) := by
  obtain ⟨hs1, ht1⟩ := getToken_success_parts ctx1 db0 u1 k1 s1 t resp1 d1 sb1
    h1a h1b h1c h1d h1e h1f h1g h1h h1i
  obtain ⟨hs2, ht2⟩ := getToken_success_parts ctx2
    (getToken ctx1 db0 u1 k1 s1 t).2.1 u2 k2 s2 t resp2 d2 sb2
    h2a h2b h2c h2d h2e h2f h2g h2h h2i
  have hu1 : tokensUnique (getToken ctx1 db0 u1 k1 s1 t).2.1.hikvision_tokens := by
    rw [ht1]
    exact tokensUnique_upsertToken _ _ hu
  refine ⟨hs1, hs2, ?_, ?_⟩
  · rw [ht2]
    have h := upsertToken_filter_eq
      (getToken ctx1 db0 u1 k1 s1 t).2.1.hikvision_tokens (mkTokenRow d2 t ctx2.now) hu1
    simpa [mkTokenRow] using h
  · rw [ht2]
    have h := getLatestToken_upsertToken
      (getToken ctx1 db0 u1 k1 s1 t).2.1.hikvision_tokens (mkTokenRow d2 t ctx2.now)
    simpa [mkTokenRow] using h

/-- Witness for the two-sequential-getToken claim: concrete vendor
replies writing tokA then tokB for tenant b1 over an empty store. -/
theorem twoGetToken_single_latest_credential_witness :
    (getToken ⟨⟨.ok { ok := true, status := 200, statusText := "OK", code := some "0", data := some ⟨"tokA", "rA", "Bearer", 5000, "dom"⟩ }, .error "", .error "", .error "", .error "", .ok { code := some "0" }⟩, {}, 1⟩
      {} "http://x" "k" "s" "b1").1.success = true ∧
    (getToken ⟨⟨.ok { ok := true, status := 200, statusText := "OK", code := some "0", data := some ⟨"tokB", "rB", "Bearer", 9000, "dom"⟩ }, .error "", .error "", .error "", .error "", .ok { code := some "0" }⟩, {}, 2⟩
      (getToken ⟨⟨.ok { ok := true, status := 200, statusText := "OK", code := some "0", data := some ⟨"tokA", "rA", "Bearer", 5000, "dom"⟩ }, .error "", .error "", .error "", .error "", .ok { code := some "0" }⟩, {}, 1⟩
        {} "http://x" "k" "s" "b1").2.1 "http://x" "k" "s" "b1").1.success = true ∧
    (getToken ⟨⟨.ok { ok := true, status := 200, statusText := "OK", code := some "0", data := some ⟨"tokB", "rB", "Bearer", 9000, "dom"⟩ }, .error "", .error "", .error "", .error "", .ok { code := some "0" }⟩, {}, 2⟩
      (getToken ⟨⟨.ok { ok := true, status := 200, statusText := "OK", code := some "0", data := some ⟨"tokA", "rA", "Bearer", 5000, "dom"⟩ }, .error "", .error "", .error "", .error "", .ok { code := some "0" }⟩, {}, 1⟩
        {} "http://x" "k" "s" "b1").2.1 "http://x" "k" "s" "b1").2.1.hikvision_tokens.filter
      (fun r => r.branch_id == "b1") = [mkTokenRow ⟨"tokB", "rB", "Bearer", 9000, "dom"⟩ "b1" 2] ∧
    getLatestToken
      (getToken ⟨⟨.ok { ok := true, status := 200, statusText := "OK", code := some "0", data := some ⟨"tokB", "rB", "Bearer", 9000, "dom"⟩ }, .error "", .error "", .error "", .error "", .ok { code := some "0" }⟩, {}, 2⟩
        (getToken ⟨⟨.ok { ok := true, status := 200, statusText := "OK", code := some "0", data := some ⟨"tokA", "rA", "Bearer", 5000, "dom"⟩ }, .error "", .error "", .error "", .error "", .ok { code := some "0" }⟩, {}, 1⟩
          {} "http://x" "k" "s" "b1").2.1 "http://x" "k" "s" "b1").2.1.hikvision_tokens "b1" =
      some (mkTokenRow ⟨"tokB", "rB", "Bearer", 9000, "dom"⟩ "b1" 2) :=
  twoGetToken_single_latest_credential _ _ {} "http://x" "http://x" "k" "k" "s" "s" "b1"
    _ _ ⟨"tokA", "rA", "Bearer", 5000, "dom"⟩ ⟨"tokB", "rB", "Bearer", 9000, "dom"⟩ _ _
    List.Pairwise.nil rfl rfl rfl rfl rfl rfl rfl rfl rfl
    rfl rfl rfl rfl rfl rfl rfl rfl rfl

/-- A key is stored in the access-privilege table. -/
def privKeyPresent (ps : List PrivRow) (p s : String) : Bool :=
  ps.any (fun r => r.person_id == p && r.door_id == s)

/-- The upserted row's key is present after the upsert. -/
theorem privKeyPresent_upsert_self (ps : List PrivRow) (row : PrivRow) :
    privKeyPresent (upsertPriv ps row) row.person_id row.door_id = true := by
  unfold privKeyPresent upsertPriv
  cases h : ps.any (fun r => r.person_id == row.person_id && r.door_id == row.door_id) with
  | false => simp
  | true =>
    rcases List.any_eq_true.mp h with ⟨r0, hr0, hp0⟩
    exact List.any_eq_true.mpr
      ⟨row, List.mem_map.mpr ⟨r0, hr0, by rw [if_pos hp0]⟩, by simp⟩

/-- Upserting one row never removes another stored key. -/
theorem privKeyPresent_upsert_mono (ps : List PrivRow) (row : PrivRow) (p s : String)
    (h : privKeyPresent ps p s = true) :
    privKeyPresent (upsertPriv ps row) p s = true := by
  unfold privKeyPresent at h
  rcases List.any_eq_true.mp h with ⟨r0, hr0, hp0⟩
  unfold privKeyPresent upsertPriv
  cases hc : ps.any (fun r => r.person_id == row.person_id && r.door_id == row.door_id) with
  | false => exact List.any_eq_true.mpr ⟨r0, by simp [hr0], hp0⟩
  | true =>
    by_cases hkey : (r0.person_id == row.person_id && r0.door_id == row.door_id) = true
    · have hkey2 : r0.person_id = row.person_id ∧ r0.door_id = row.door_id := by
        simpa using hkey
      have hp02 : r0.person_id = p ∧ r0.door_id = s := by simpa using hp0
      refine List.any_eq_true.mpr
        ⟨row, List.mem_map.mpr ⟨r0, hr0, by rw [if_pos hkey]⟩, ?_⟩
      simp [← hkey2.1, ← hkey2.2, hp02.1, hp02.2]
    · exact List.any_eq_true.mpr
        ⟨r0, List.mem_map.mpr ⟨r0, hr0, by rw [if_neg hkey]⟩, hp0⟩

/-- The per-door loop records one upsert attempt per door, keyed on
(person id, door id), in list order. -/
theorem assignFold_attempts (ctx : Ctx) (personId : String)
    (vs ve : Option String) (ds : List JsNum) :
    ∀ init : Db × List (String × String) × List String,
    (ds.foldl (assignDoorStep ctx personId vs ve) init).2.1 =
      init.2.1 ++ ds.map (fun d => (personId, jsNumToString d)) := by
  induction ds with
  | nil => intro init; simp
  | cons a t ih =>
    intro init
    rw [List.foldl_cons, ih]
    by_cases h : jsNumToString a ∈ ctx.faults.privUpsertFailDoors
    · simp [assignDoorStep, h]
    · simp [assignDoorStep, h]

/-- The per-door loop logs exactly the failing doors, in order. -/
theorem assignFold_log (ctx : Ctx) (personId : String)
    (vs ve : Option String) (ds : List JsNum) :
    ∀ init : Db × List (String × String) × List String,
    (ds.foldl (assignDoorStep ctx personId vs ve) init).2.2 =
      init.2.2 ++ (ds.map jsNumToString).filter
        (fun x => ctx.faults.privUpsertFailDoors.contains x) := by
  induction ds with
  | nil => intro init; simp
  | cons a t ih =>
    intro init
    rw [List.foldl_cons, ih]
    by_cases h : jsNumToString a ∈ ctx.faults.privUpsertFailDoors
    · simp [assignDoorStep, h]
    · simp [assignDoorStep, h]

/-- A key already stored survives the rest of the per-door loop. -/
theorem assignFold_mono (ctx : Ctx) (personId : String)
    (vs ve : Option String) (p s : String) (ds : List JsNum) :
    ∀ init : Db × List (String × String) × List String,
    privKeyPresent init.1.hikvision_access_privileges p s = true →
    privKeyPresent
      (ds.foldl (assignDoorStep ctx personId vs ve) init).1.hikvision_access_privileges
      p s = true := by
  induction ds with
  | nil => intro init h; simpa using h
  | cons a t ih =>
    intro init h
    rw [List.foldl_cons]
    apply ih
    by_cases hc : jsNumToString a ∈ ctx.faults.privUpsertFailDoors
    · simpa [assignDoorStep, hc] using h
    · have hcc : ¬ctx.faults.privUpsertFailDoors.contains (jsNumToString a) = true := by
        simpa using hc
      simp only [assignDoorStep]
      rw [if_neg hcc]
      exact privKeyPresent_upsert_mono _ _ _ _ h

/-- Every non-failing door of the list ends up stored under its
(person id, door id) key after the loop. -/
theorem assignFold_presence (ctx : Ctx) (personId : String)
    (vs ve : Option String) (ds : List JsNum) :
    ∀ (init : Db × List (String × String) × List String) (d : JsNum),
    d ∈ ds →
    ctx.faults.privUpsertFailDoors.contains (jsNumToString d) = false →
    privKeyPresent
      (ds.foldl (assignDoorStep ctx personId vs ve) init).1.hikvision_access_privileges
      personId (jsNumToString d) = true := by
  induction ds with
  | nil => intro init d h; simp at h
  | cons a t ih =>
    intro init d hmem hc
    rw [List.foldl_cons]
    rcases List.mem_cons.mp hmem with he | ht
    · subst he
      apply assignFold_mono
      have hc' : ¬ctx.faults.privUpsertFailDoors.contains (jsNumToString d) = true := by
        simpa using hc
      simp only [assignDoorStep]
      rw [if_neg hc']
      exact privKeyPresent_upsert_self _ _
    · exact ih _ d ht hc

/-- C5: with a door list of length N and a successful vendor response,
`assignAccessPrivileges` attempts exactly N local upserts — one per door
id, in order, each keyed on (person id, door id) — and regardless of
which of those local upserts fail, the returned result is success=true;
failing doors are only logged, and every non-failing door's row is
present afterwards (no rollback). -/
theorem assignPrivileges_per_door_upserts (ctx : Ctx) (db : Db)
    (did pid : String) (doors : List JsNum) (vs ve : Option String)
    (dev : DeviceRow) (st : SettingsRow) (body : PrivBody)
    (hfind : db.hikvision_devices.find? (fun r => r.device_id == did) = some dev)
    (htm : tokenMissing db.hikvision_tokens dev.branch_id = false)
    (hst : db.hikvision_api_settings.find? (fun x => x.branch_id == dev.branch_id) = some st)
    (hurl : (st.api_url == "") = false)
    (hresp : ctx.vendor.privilegeResp = .ok body) (hcode : body.code = some "0") :
    (assignAccessPrivileges ctx db did pid doors vs ve).result =
      { success := true, message := some "Access privileges assigned successfully" } ∧
    (assignAccessPrivileges ctx db did pid doors vs ve).attempts =
      doors.map (fun d => (pid, jsNumToString d)) ∧
    (assignAccessPrivileges ctx db did pid doors vs ve).attempts.length = doors.length ∧
    (assignAccessPrivileges ctx db did pid doors vs ve).errorLog =
      (doors.map jsNumToString).filter
        (fun x => ctx.faults.privUpsertFailDoors.contains x) ∧
    (∀ d ∈ doors, ctx.faults.privUpsertFailDoors.contains (jsNumToString d) = false →
      privKeyPresent
        (assignAccessPrivileges ctx db did pid doors vs ve).db.hikvision_access_privileges
        pid (jsNumToString d) = true) := by
  have hred : assignAccessPrivileges ctx db did pid doors vs ve =
      ⟨{ success := true, message := some "Access privileges assigned successfully" },
        (doors.foldl (assignDoorStep ctx pid vs ve) (db, [], [])).1,
        [VCall.privilegeConfig pid did doors (jsOpt vs) (jsOpt ve)],
        (doors.foldl (assignDoorStep ctx pid vs ve) (db, [], [])).2.1,
        (doors.foldl (assignDoorStep ctx pid vs ve) (db, [], [])).2.2⟩ := by
    simp [assignAccessPrivileges, hfind, htm, hst, hurl, hresp, hcode]
  rw [hred]
  refine ⟨rfl, ?_, ?_, ?_, ?_⟩
  · simpa using assignFold_attempts ctx pid vs ve doors (db, [], [])
  · have h := assignFold_attempts ctx pid vs ve doors (db, [], [])
    simp only [List.nil_append] at h
    simp [h]
  · simpa using assignFold_log ctx pid vs ve doors (db, [], [])
  · intro d hd hc
    exact assignFold_presence ctx pid vs ve doors (db, [], []) d hd hc

/-- Witness for the per-door upsert claim: two doors with an injected
store failure on the second — the result is still success, the failure
is logged, and door 1 is stored. -/
theorem assignPrivileges_per_door_upserts_witness :
    ((assignAccessPrivileges ⟨⟨.error "", .error "", .error "", .ok { code := some "0" }, .error "", .error ""⟩, { privUpsertFailDoors := ["2"] }, 7⟩
      { hikvision_tokens := [⟨"tok", "r", "Bearer", 0, 0, "dom", "b1", 0⟩], hikvision_devices := [⟨"d1", "b1"⟩], hikvision_api_settings := [⟨"b1", "http://x", none, none, 0⟩] }
      "d1" "p1" [some 1, some 2] none none).result =
      { success := true, message := some "Access privileges assigned successfully" }) ∧
    ((assignAccessPrivileges ⟨⟨.error "", .error "", .error "", .ok { code := some "0" }, .error "", .error ""⟩, { privUpsertFailDoors := ["2"] }, 7⟩
      { hikvision_tokens := [⟨"tok", "r", "Bearer", 0, 0, "dom", "b1", 0⟩], hikvision_devices := [⟨"d1", "b1"⟩], hikvision_api_settings := [⟨"b1", "http://x", none, none, 0⟩] }
      "d1" "p1" [some 1, some 2] none none).attempts = [("p1", "1"), ("p1", "2")]) ∧
    ((assignAccessPrivileges ⟨⟨.error "", .error "", .error "", .ok { code := some "0" }, .error "", .error ""⟩, { privUpsertFailDoors := ["2"] }, 7⟩
      { hikvision_tokens := [⟨"tok", "r", "Bearer", 0, 0, "dom", "b1", 0⟩], hikvision_devices := [⟨"d1", "b1"⟩], hikvision_api_settings := [⟨"b1", "http://x", none, none, 0⟩] }
      "d1" "p1" [some 1, some 2] none none).errorLog = ["2"]) ∧
    (privKeyPresent
      (assignAccessPrivileges ⟨⟨.error "", .error "", .error "", .ok { code := some "0" }, .error "", .error ""⟩, { privUpsertFailDoors := ["2"] }, 7⟩
        { hikvision_tokens := [⟨"tok", "r", "Bearer", 0, 0, "dom", "b1", 0⟩], hikvision_devices := [⟨"d1", "b1"⟩], hikvision_api_settings := [⟨"b1", "http://x", none, none, 0⟩] }
        "d1" "p1" [some 1, some 2] none none).db.hikvision_access_privileges
      "p1" "1" = true) := by
  have h := assignPrivileges_per_door_upserts
    ⟨⟨.error "", .error "", .error "", .ok { code := some "0" }, .error "", .error ""⟩, { privUpsertFailDoors := ["2"] }, 7⟩
    { hikvision_tokens := [⟨"tok", "r", "Bearer", 0, 0, "dom", "b1", 0⟩], hikvision_devices := [⟨"d1", "b1"⟩], hikvision_api_settings := [⟨"b1", "http://x", none, none, 0⟩] }
    "d1" "p1" [some 1, some 2] none none ⟨"d1", "b1"⟩ ⟨"b1", "http://x", none, none, 0⟩
    { code := some "0" } rfl rfl rfl rfl rfl rfl
  refine ⟨h.1, ?_, ?_, ?_⟩
  · rw [h.2.1]; rfl
  · rw [h.2.2.2.1]; rfl
  · exact h.2.2.2.2 (some 1) (by decide) rfl

/-- C7 counterexample: a fully successful `getToken` (vendor token ok,
site search returns site s9) during which the `branches` update returns
an error leaves the call successful and the resolved site in the
returned data, but does NOT update the tenant's stored site association
— the update failure is only logged. -/
theorem getToken_site_association_counterexample :
    (getToken ⟨⟨.ok { ok := true, status := 200, statusText := "OK", code := some "0", data := some ⟨"tok", "r", "Bearer", 5000, "dom"⟩ }, .error "", .error "", .error "", .error "", .ok { code := some "0", data := some { list := some [⟨"s9", "SiteX"⟩] } }⟩, { branchUpdateFail := true }, 3⟩
      { branches := [⟨"b1", none, none, 0⟩] } "http://x" "k" "s" "b1").1.success = true ∧
    (getToken ⟨⟨.ok { ok := true, status := 200, statusText := "OK", code := some "0", data := some ⟨"tok", "r", "Bearer", 5000, "dom"⟩ }, .error "", .error "", .error "", .error "", .ok { code := some "0", data := some { list := some [⟨"s9", "SiteX"⟩] } }⟩, { branchUpdateFail := true }, 3⟩
      { branches := [⟨"b1", none, none, 0⟩] } "http://x" "k" "s" "b1").2.1.branches =
      [⟨"b1", none, none, 0⟩] ∧
    (⟨"b1", none, none, 0⟩ : BranchRow).hikvision_site_id = none ∧
    (getToken ⟨⟨.ok { ok := true, status := 200, statusText := "OK", code := some "0", data := some ⟨"tok", "r", "Bearer", 5000, "dom"⟩ }, .error "", .error "", .error "", .error "", .ok { code := some "0", data := some { list := some [⟨"s9", "SiteX"⟩] } }⟩, { branchUpdateFail := true }, 3⟩
      { branches := [⟨"b1", none, none, 0⟩] } "http://x" "k" "s" "b1").1.data =
      some (.obj [("accessToken", .str "tok"), ("tokenType", .str "Bearer"),
        ("expireTime", .str (isoOf 5000)), ("areaDomain", .str "dom"),
        ("siteId", .str "s9"), ("siteName", .str "SiteX")]) :=
  ⟨rfl, rfl, rfl, rfl⟩

/-- C7 (amended): a successful `getToken` persists the credential, then
resolves the tenant's site via `searchSites` with empty name/id filters,
takes the first returned site (or the synthetic placeholder
default-site/Default Site when the search returns none), returns the
credential together with the resolved site id and name, and — provided
the store update itself does not fail (a failed update is only logged) —
updates the tenant's stored site association. -/
theorem getToken_resolves_site (ctx : Ctx) (db : Db)
    (apiUrl appKey secretKey branchId : String)
    (resp : TokenHttp) (d : TokenData) (sb : SearchBody)
    (hresp : ctx.vendor.tokenResp = .ok resp) (hok : resp.ok = true)
    (hcode : tokenCodeError resp.code = false) (hdata : resp.data = some d)
    (hfault : ctx.faults.tokenUpsertFail = false)
    (hurl : (apiUrl == "") = false)
    (htok : (d.accessToken == "") = false)
    (hsearch : ctx.vendor.siteSearchResp = .ok sb) (hsb : sb.code = some "0")
    (hbf : ctx.faults.branchUpdateFail = false) :
    getToken ctx db apiUrl appKey secretKey branchId =
      ({ success := true,
         data := some (.obj [
           ("accessToken", .str d.accessToken),
           ("tokenType", .str d.tokenType),
           ("expireTime", .str (isoOf d.expireTime)),
           ("areaDomain", .str d.areaDomain),
           ("siteId", .str ((searchList sb).head?.getD defaultSite).id),
           ("siteName", .str ((searchList sb).head?.getD defaultSite).name)]) },
       { db with
         hikvision_tokens :=
           upsertToken db.hikvision_tokens (mkTokenRow d branchId ctx.now),
         branches := db.branches.map (fun b =>
           if b.id == branchId then
             { b with
               hikvision_site_id := some ((searchList sb).head?.getD defaultSite).id,
               hikvision_site_name := some ((searchList sb).head?.getD defaultSite).name,
               updated_at := ctx.now }
           else b) },
       [VCall.tokenGet appKey secretKey, VCall.siteSearch none none]) := by
  simp [getToken, searchSites, resolveSite, hresp, hok, hcode, hdata, hfault, hurl,
    tokenMissing_upsert_mk, htok, hsearch, hsb, hbf, jsOpt, falsyS]

/-- Witness for the site-resolution claim: once with a nonempty search
result (first site canonical) and once with an empty one (placeholder
substituted), both over a branch row that gets the association. -/
theorem getToken_resolves_site_witness :
    getToken ⟨⟨.ok { ok := true, status := 200, statusText := "OK", code := some "0", data := some ⟨"tok", "r", "Bearer", 5000, "dom"⟩ }, .error "", .error "", .error "", .error "", .ok { code := some "0", data := some { list := some [⟨"s9", "SiteX"⟩] } }⟩, {}, 3⟩
      { branches := [⟨"b1", none, none, 0⟩] } "http://x" "k" "s" "b1" =
      ({ success := true,
         data := some (.obj [
           ("accessToken", .str "tok"), ("tokenType", .str "Bearer"),
           ("expireTime", .str (isoOf 5000)), ("areaDomain", .str "dom"),
           ("siteId", .str "s9"), ("siteName", .str "SiteX")]) },
       { branches := [⟨"b1", some "s9", some "SiteX", 3⟩],
         hikvision_tokens := [mkTokenRow ⟨"tok", "r", "Bearer", 5000, "dom"⟩ "b1" 3] },
       [VCall.tokenGet "k" "s", VCall.siteSearch none none]) ∧
    getToken ⟨⟨.ok { ok := true, status := 200, statusText := "OK", code := some "0", data := some ⟨"tok", "r", "Bearer", 5000, "dom"⟩ }, .error "", .error "", .error "", .error "", .ok { code := some "0", data := some { list := some [] } }⟩, {}, 3⟩
      { branches := [⟨"b1", none, none, 0⟩] } "http://x" "k" "s" "b1" =
      ({ success := true,
         data := some (.obj [
           ("accessToken", .str "tok"), ("tokenType", .str "Bearer"),
           ("expireTime", .str (isoOf 5000)), ("areaDomain", .str "dom"),
           ("siteId", .str "default-site"), ("siteName", .str "Default Site")]) },
       { branches := [⟨"b1", some "default-site", some "Default Site", 3⟩],
         hikvision_tokens := [mkTokenRow ⟨"tok", "r", "Bearer", 5000, "dom"⟩ "b1" 3] },
       [VCall.tokenGet "k" "s", VCall.siteSearch none none]) := by
  constructor
  · rw [getToken_resolves_site
      ⟨⟨.ok { ok := true, status := 200, statusText := "OK", code := some "0", data := some ⟨"tok", "r", "Bearer", 5000, "dom"⟩ }, .error "", .error "", .error "", .error "", .ok { code := some "0", data := some { list := some [⟨"s9", "SiteX"⟩] } }⟩, {}, 3⟩
      { branches := [⟨"b1", none, none, 0⟩] } "http://x" "k" "s" "b1"
      { ok := true, status := 200, statusText := "OK", code := some "0", data := some ⟨"tok", "r", "Bearer", 5000, "dom"⟩ }
      ⟨"tok", "r", "Bearer", 5000, "dom"⟩ { code := some "0", data := some { list := some [⟨"s9", "SiteX"⟩] } }
      rfl rfl rfl rfl rfl rfl rfl rfl rfl rfl]
    rfl
  · rw [getToken_resolves_site
      ⟨⟨.ok { ok := true, status := 200, statusText := "OK", code := some "0", data := some ⟨"tok", "r", "Bearer", 5000, "dom"⟩ }, .error "", .error "", .error "", .error "", .ok { code := some "0", data := some { list := some [] } }⟩, {}, 3⟩
      { branches := [⟨"b1", none, none, 0⟩] } "http://x" "k" "s" "b1"
      { ok := true, status := 200, statusText := "OK", code := some "0", data := some ⟨"tok", "r", "Bearer", 5000, "dom"⟩ }
      ⟨"tok", "r", "Bearer", 5000, "dom"⟩ { code := some "0", data := some { list := some [] } }
      rfl rfl rfl rfl rfl rfl rfl rfl rfl rfl]
    rfl

/-- C9: the operations disagree on a vendor body with no `code` field:
`getToken`'s guard `code && code !== '0'` treats an absent (or empty,
falsy) code as success and proceeds to extract token data, while the
other five operations' guard `code !== '0'` treats an absent code as a
vendor error and returns a failure envelope (whose message is the
catalog fallback for the coerced string "undefined"). -/
theorem absentVendorCode_classification_disagreement :
    tokenCodeError none = false ∧
    tokenCodeError (some "") = false ∧
    (∀ s : String, s ≠ "" → s ≠ "0" → tokenCodeError (some s) = true) ∧
    (∀ (ctx : Ctx) (db : Db) (u k sk b : String) (resp : TokenHttp)
        (d : TokenData) (sb : SearchBody),
      ctx.vendor.tokenResp = .ok resp → resp.ok = true → resp.code = none →
      resp.data = some d → ctx.faults.tokenUpsertFail = false →
      (u == "") = false → (d.accessToken == "") = false →
      ctx.vendor.siteSearchResp = .ok sb → sb.code = some "0" →
      (getToken ctx db u k sk b).1.success = true) ∧
    (∀ (ctx : Ctx) (db : Db) (s : Settings) (body : DeviceBody),
      ctx.vendor.deviceResp = .ok body → body.code = none →
      (s.api_url == "") = false → tokenMissing db.hikvision_tokens s.branch_id = false →
      (testDevice ctx db s).1 =
        { success := false, error := some (getHikvisionError "undefined").message,
          errorCode := none }) ∧
    (∀ (ctx : Ctx) (db : Db) (s : Settings) (pd : PersonData) (b : String)
        (body : PersonBody),
      ctx.vendor.personResp = .ok body → body.code = none →
      (s.api_url == "") = false → falsyS pd.name = false →
      tokenMissing db.hikvision_tokens b = false →
      (registerPerson ctx db s pd b).1 =
        { success := false, message := some (getHikvisionError "undefined").message,
          errorCode := none }) ∧
    (∀ (ctx : Ctx) (db : Db) (did pid : String) (doors : List JsNum)
        (vs ve : Option String) (dev : DeviceRow) (st : SettingsRow) (body : PrivBody),
      ctx.vendor.privilegeResp = .ok body → body.code = none →
      db.hikvision_devices.find? (fun r => r.device_id == did) = some dev →
      tokenMissing db.hikvision_tokens dev.branch_id = false →
      db.hikvision_api_settings.find? (fun x => x.branch_id == dev.branch_id) = some st →
      (st.api_url == "") = false →
      (assignAccessPrivileges ctx db did pid doors vs ve).result =
        { success := false, message := some (getHikvisionError "undefined").message,
          errorCode := none }) ∧
    (∀ (ctx : Ctx) (db : Db) (sn b : String) (st : SettingsRow) (body : SiteAddBody),
      ctx.vendor.siteAddResp = .ok body → body.code = none →
      tokenMissing db.hikvision_tokens b = false →
      db.hikvision_api_settings.find? (fun x => x.branch_id == b) = some st →
      (st.api_url == "") = false →
      (createSite ctx db sn b).1 =
        { success := false, message := some (getHikvisionError "undefined").message,
          errorCode := none }) ∧
    (∀ (ctx : Ctx) (db : Db) (u b sn si : String) (body : SearchBody),
      ctx.vendor.siteSearchResp = .ok body → body.code = none →
      (u == "") = false → tokenMissing db.hikvision_tokens b = false →
      (searchSites ctx db u b sn si).1 =
        { success := false, message := some (getHikvisionError "undefined").message,
          errorCode := none }) := by
  refine ⟨rfl, rfl, ?_, ?_, ?_, ?_, ?_, ?_, ?_⟩
  · intro s h1 h2
    simp [tokenCodeError, h1, h2]
  · intro ctx db u k sk b resp d sb hresp hok hcode hdata hfault hurl htok hsearch hsb
    exact (getToken_success_parts ctx db u k sk b resp d sb hresp hok
      (by simp [tokenCodeError, hcode]) hdata hfault hurl htok hsearch hsb).1
  · intro ctx db s body hresp hcode hurl htm
    simp [testDevice, hurl, htm, hresp, hcode, jsStr]
  · intro ctx db s pd b body hresp hcode hurl hname htm
    simp [registerPerson, hurl, hname, htm, hresp, hcode, jsStr]
  · intro ctx db did pid doors vs ve dev st body hresp hcode hfind htm hst hurl
    simp [assignAccessPrivileges, hfind, htm, hst, hurl, hresp, hcode, jsStr]
  · intro ctx db sn b st body hresp hcode htm hst hurl
    simp [createSite, htm, hst, hurl, hresp, hcode, jsStr]
  · intro ctx db u b sn si body hresp hcode hurl htm
    simp [searchSites, hurl, htm, hresp, hcode, jsStr]

/-- Witness for the classification-disagreement claim: a code-less 2xx
body makes a concrete `getToken` succeed while the same kind of body
makes each strict operation fail. -/
theorem absentVendorCode_classification_disagreement_witness :
    tokenCodeError (some "7") = true ∧
    (getToken ⟨⟨.ok { ok := true, status := 200, statusText := "OK", code := none, data := some ⟨"tok", "r", "Bearer", 5000, "dom"⟩ }, .error "", .error "", .error "", .error "", .ok { code := some "0" }⟩, {}, 3⟩
      {} "http://x" "k" "s" "b1").1.success = true ∧
    ((testDevice ⟨⟨.error "", .ok { code := none }, .error "", .error "", .error "", .error ""⟩, {}, 0⟩
      { hikvision_tokens := [⟨"tok", "r", "Bearer", 0, 0, "dom", "b1", 0⟩] }
      ⟨"http://x", "b1", some "d1"⟩).1 =
      { success := false, error := some (getHikvisionError "undefined").message,
        errorCode := none }) ∧
    ((registerPerson ⟨⟨.error "", .error "", .ok { code := none }, .error "", .error "", .error ""⟩, {}, 0⟩
      { hikvision_tokens := [⟨"tok", "r", "Bearer", 0, 0, "dom", "b1", 0⟩] }
      ⟨"http://x", "b1", none⟩ { name := some "Al" } "b1").1 =
      { success := false, message := some (getHikvisionError "undefined").message,
        errorCode := none }) ∧
    ((assignAccessPrivileges ⟨⟨.error "", .error "", .error "", .ok { code := none }, .error "", .error ""⟩, {}, 0⟩
      { hikvision_tokens := [⟨"tok", "r", "Bearer", 0, 0, "dom", "b1", 0⟩], hikvision_devices := [⟨"d1", "b1"⟩], hikvision_api_settings := [⟨"b1", "http://x", none, none, 0⟩] }
      "d1" "p1" [some 1] none none).result =
      { success := false, message := some (getHikvisionError "undefined").message,
        errorCode := none }) ∧
    ((createSite ⟨⟨.error "", .error "", .error "", .error "", .ok { code := none }, .error ""⟩, {}, 0⟩
      { hikvision_tokens := [⟨"tok", "r", "Bearer", 0, 0, "dom", "b1", 0⟩], hikvision_devices := [⟨"d1", "b1"⟩], hikvision_api_settings := [⟨"b1", "http://x", none, none, 0⟩] }
      "S" "b1").1 =
      { success := false, message := some (getHikvisionError "undefined").message,
        errorCode := none }) ∧
    ((searchSites ⟨⟨.error "", .error "", .error "", .error "", .error "", .ok { code := none }⟩, {}, 0⟩
      { hikvision_tokens := [⟨"tok", "r", "Bearer", 0, 0, "dom", "b1", 0⟩] }
      "http://x" "b1" "" "").1 =
      { success := false, message := some (getHikvisionError "undefined").message,
        errorCode := none }) :=
  ⟨absentVendorCode_classification_disagreement.2.2.1 "7" (by decide) (by decide),
   absentVendorCode_classification_disagreement.2.2.2.1 _ _ _ _ _ _
     { ok := true, status := 200, statusText := "OK", code := none, data := some ⟨"tok", "r", "Bearer", 5000, "dom"⟩ }
     ⟨"tok", "r", "Bearer", 5000, "dom"⟩ { code := some "0" }
     rfl rfl rfl rfl rfl rfl rfl rfl rfl,
   absentVendorCode_classification_disagreement.2.2.2.2.1 _ _ _ { code := none }
     rfl rfl rfl rfl,
   absentVendorCode_classification_disagreement.2.2.2.2.2.1 _ _ _ _ _ { code := none }
     rfl rfl rfl rfl rfl,
   absentVendorCode_classification_disagreement.2.2.2.2.2.2.1 _ _ _ _ _ _ _
     ⟨"d1", "b1"⟩ ⟨"b1", "http://x", none, none, 0⟩ { code := none }
     rfl rfl rfl rfl rfl rfl,
   absentVendorCode_classification_disagreement.2.2.2.2.2.2.2.1 _ _ _ _
     ⟨"b1", "http://x", none, none, 0⟩ { code := none } rfl rfl rfl rfl rfl,
   absentVendorCode_classification_disagreement.2.2.2.2.2.2.2.2 _ _ _ _ _ _
     { code := none } rfl rfl rfl rfl⟩

/-- C10 counterexample: a registerPerson request with `branchId` present
as the empty string reaches the 'branchId is required' validation branch
(the destructuring default applies only to an absent field), so that
branch is not unreachable as claimed. -/
theorem branchId_required_reachable_counterexample :
    serve ⟨⟨.error "", .error "", .error "", .error "", .error "", .error ""⟩, {}, 0⟩ {} "POST"
      (.ok { action := some "registerPerson", personData := some { name := some "A" }, branchId := some "" }) =
      ⟨⟨500, jsonHeaders,
        some (Envelope.toJs
          { success := false,
            error := some "branchId is required for registerPerson action" })⟩, {}, []⟩ ∧
    extractBranchId { action := some "registerPerson", personData := some { name := some "A" }, branchId := some "" } = "" :=
  ⟨rfl, rfl⟩

/-- C10 (amended): a request that omits `branchId` gets the tenant id
"default": the extraction never yields an absent tenant for an omitted
field, the registerPerson/createSite 'branchId is required' branches are
unreachable for such requests (the action is dispatched), and a
successful registerPerson without a branchId stores the person mapping
under tenant id "default"; the branches remain reachable when
`branchId` is present but empty. -/
theorem branchId_defaults_for_omitted_field :
    (∀ r : HikvisionRequest, r.branchId = none → extractBranchId r = "default") ∧
    (∀ (ctx : Ctx) (db : Db) (r : HikvisionRequest) (pd : PersonData),
      r.action = some "registerPerson" → r.branchId = none → r.personData = some pd →
      serve ctx db "POST" (.ok r) =
        ⟨⟨200, jsonHeaders,
          some (registerPerson ctx db ⟨r.apiUrl.getD "", "default", r.deviceId⟩ pd "default").1.toJs⟩,
          (registerPerson ctx db ⟨r.apiUrl.getD "", "default", r.deviceId⟩ pd "default").2.1,
          (registerPerson ctx db ⟨r.apiUrl.getD "", "default", r.deviceId⟩ pd "default").2.2⟩) ∧
    (∀ (ctx : Ctx) (db : Db) (r : HikvisionRequest),
      r.action = some "createSite" → r.branchId = none → falsyS r.siteName = false →
      serve ctx db "POST" (.ok r) =
        ⟨⟨200, jsonHeaders,
          some (Envelope.toJs
            { success := true, message := some "Site created successfully",
              data := some (createSite ctx db (r.siteName.getD "") "default").1.toJs })⟩,
          (createSite ctx db (r.siteName.getD "") "default").2.1,
          (createSite ctx db (r.siteName.getD "") "default").2.2⟩) ∧
    (∀ (ctx : Ctx) (db : Db) (s : Settings) (pd : PersonData)
        (body : PersonBody) (d : PersonAddData),
      (s.api_url == "") = false → falsyS pd.name = false →
      tokenMissing db.hikvision_tokens "default" = false →
      ctx.vendor.personResp = .ok body → body.code = some "0" →
      body.data = some d → ctx.faults.personUpsertFail = false →
      (registerPerson ctx db s pd "default").2.1.hikvision_persons =
        upsertPerson db.hikvision_persons (mkPersonRow pd d.personId "default" ctx.now) ∧
      (mkPersonRow pd d.personId "default" ctx.now).branch_id = "default") := by
  have hPost : ("POST" == "OPTIONS") = false := by decide
  refine ⟨?_, ?_, ?_, ?_⟩
  · intro r h
    simp [extractBranchId, h]
  · intro ctx db r pd ha hbr hp
    simp [serve, hPost, ha, hp, hbr, extractBranchId]
  · intro ctx db r ha hbr hsn
    simp [serve, hPost, ha, hsn, hbr, extractBranchId]
  · intro ctx db s pd body d hurl hname htm hresp hcode hdata hfault
    refine ⟨?_, rfl⟩
    simp [registerPerson, hurl, hname, htm, hresp, hcode, hdata, hfault]

/-- Witness for the omitted-branchId claim: concrete requests without a
`branchId` dispatched under "default", and a successful registration
stored under "default". -/
theorem branchId_defaults_for_omitted_field_witness :
    extractBranchId { action := some "registerPerson" } = "default" ∧
    (serve ⟨⟨.error "", .error "", .error "", .error "", .error "", .error ""⟩, {}, 0⟩ {} "POST"
      (.ok { action := some "registerPerson", apiUrl := some "http://x", personData := some { name := some "Al" } }) =
      ⟨⟨200, jsonHeaders,
        some (registerPerson ⟨⟨.error "", .error "", .error "", .error "", .error "", .error ""⟩, {}, 0⟩ {} ⟨"http://x", "default", none⟩ { name := some "Al" } "default").1.toJs⟩,
        (registerPerson ⟨⟨.error "", .error "", .error "", .error "", .error "", .error ""⟩, {}, 0⟩ {} ⟨"http://x", "default", none⟩ { name := some "Al" } "default").2.1,
        (registerPerson ⟨⟨.error "", .error "", .error "", .error "", .error "", .error ""⟩, {}, 0⟩ {} ⟨"http://x", "default", none⟩ { name := some "Al" } "default").2.2⟩) ∧
    (serve ⟨⟨.error "", .error "", .error "", .error "", .error "", .error ""⟩, {}, 0⟩ {} "POST"
      (.ok { action := some "createSite", siteName := some "S" }) =
      ⟨⟨200, jsonHeaders,
        some (Envelope.toJs
          { success := true, message := some "Site created successfully",
            data := some (createSite ⟨⟨.error "", .error "", .error "", .error "", .error "", .error ""⟩, {}, 0⟩ {} "S" "default").1.toJs })⟩,
        (createSite ⟨⟨.error "", .error "", .error "", .error "", .error "", .error ""⟩, {}, 0⟩ {} "S" "default").2.1,
        (createSite ⟨⟨.error "", .error "", .error "", .error "", .error "", .error ""⟩, {}, 0⟩ {} "S" "default").2.2⟩) ∧
    ((registerPerson ⟨⟨.error "", .error "", .ok { code := some "0", data := some { personId := some "P9" } }, .error "", .error "", .error ""⟩, {}, 5⟩
      { hikvision_tokens := [⟨"tok", "r", "Bearer", 0, 0, "dom", "default", 0⟩] }
      ⟨"http://x", "default", none⟩ { id := some "m1", name := some "Al" } "default").2.1.hikvision_persons =
      upsertPerson [] (mkPersonRow { id := some "m1", name := some "Al" } (some "P9") "default" 5) ∧
     (mkPersonRow { id := some "m1", name := some "Al" } (some "P9") "default" 5).branch_id = "default") :=
  ⟨branchId_defaults_for_omitted_field.1 _ rfl,
   branchId_defaults_for_omitted_field.2.1 _ _ _ _ rfl rfl rfl,
   branchId_defaults_for_omitted_field.2.2.1 _ _ _ rfl rfl rfl,
   branchId_defaults_for_omitted_field.2.2.2 _
     { hikvision_tokens := [⟨"tok", "r", "Bearer", 0, 0, "dom", "default", 0⟩] }
     _ _ { code := some "0", data := some { personId := some "P9" } } { personId := some "P9" }
     rfl rfl rfl rfl rfl rfl rfl⟩
